import Mathlib

/-!
Verification of the autopvs1 sequence-variant PVS1 classifier.

This file gives a shallow embedding, in Lean 4, of the core of the
`bihealth/autopvs1` repository: the sequence-variant data model and resolver
(`src/defs/seqvar.py`), and the PVS1 helper predicates and decision engine
(`src/pvs1/seqvar_pvs1.py`).  Python strings are modelled as Lean `String`,
Python `int` as `Int`, Python `float` arithmetic as exact rationals `ℚ`,
fallible code as `Except PyErr`, and remote HTTP collaborators (annonars,
dotty, the splicing-prediction helper) as explicit oracle arguments holding
the response the remote side would return.

Eight Python-level conventions are modelled explicitly:
* `str.replace(old, new)` replaces non-overlapping occurrences left to right
  (`pyReplaceAux`, fuelled by the string length, which bounds the number of
  steps);
* `str.lower()/str.upper()` act characterwise (ASCII suffices for every
  string the program manipulates here);
* `int(s)` on a regex-guarded `\d+` group never fails and is modelled by the
  total digit fold `strToNatCore`;
* Python `%` on `int` with a positive modulus agrees with `Int.emod`, which
  is Lean's `%` on `Int`;
* Python truthiness of `Optional[int]` values (`if not start_pos`) is false
  exactly on `None` and `0` (`pyFalsyOptInt`);
* Python truthiness of an optional list (`if v.records`) is false exactly on
  `None` and `[]` (`pyTruthyOptList`);
* a Python `dict` built by insertion is modelled as an association list in
  insertion order with unique keys;
* exceptions are values of the inductive `PyErr`; `except SomeClass` clauses
  catch exactly the constructors corresponding to that class hierarchy.
-/

/-! ## Python string primitives -/

/-- Characterwise `str.lower()`. -/
def pyLower (s : String) : String := ⟨s.data.map Char.toLower⟩

/-- Characterwise `str.upper()`. -/
def pyUpper (s : String) : String := ⟨s.data.map Char.toUpper⟩

/-- Fuelled core of Python `str.replace`: replace non-overlapping occurrences
of `old` left to right.  The fuel only needs to exceed the length of the
scanned list; each step either consumes one character or a full occurrence of
`old`. -/
def pyReplaceAux (old new : List Char) : Nat → List Char → List Char
  | 0, s => s
  | _ + 1, [] => []
  | fuel + 1, c :: rest =>
    if old ≠ [] ∧ old.isPrefixOf (c :: rest) then
      new ++ pyReplaceAux old new fuel ((c :: rest).drop old.length)
    else
      c :: pyReplaceAux old new fuel rest

/-- Python `s.replace(old, new)` (for non-empty `old`, the only use here). -/
def pyReplace (s old new : String) : String :=
  ⟨pyReplaceAux old.data new.data s.data.length s.data⟩

/-- Split a character list at every occurrence of `sep`, keeping empty
fields, as Python `str.split(sep)` does. -/
def splitCh (sep : Char) : List Char → List (List Char)
  | [] => [[]]
  | c :: rest =>
    match splitCh sep rest with
    | [] => [[]]
    | g :: gs => if c = sep then [] :: g :: gs else (c :: g) :: gs

/-- Decimal digit character for `n < 10`. -/
def digitChar (n : Nat) : Char := Char.ofNat (48 + n)

/-- Fuelled most-significant-first decimal digits of `n`; any fuel above `n`
is enough since the recursion divides by 10. -/
def natToDigitsAux : Nat → Nat → List Char
  | 0, _ => []
  | fuel + 1, n =>
    if n < 10 then [digitChar n]
    else natToDigitsAux fuel (n / 10) ++ [digitChar (n % 10)]

/-- Decimal rendering of a natural number, as Python `str(n)`. -/
def natToStr (n : Nat) : String := ⟨natToDigitsAux (n + 1) n⟩

/-- Decimal rendering of a Python `int`. -/
def pyIntRepr (i : Int) : String :=
  if i < 0 then "-" ++ natToStr i.natAbs else natToStr i.toNat

/-- Digit fold underlying Python `int(s)`; total, but only applied to
regex-guarded all-digit groups, where it agrees with `int`. -/
def strToNatCore (cs : List Char) : Nat :=
  cs.foldl (fun a c => a * 10 + (c.toNat - 48)) 0

/-- `int(s)` on a `\d+` regex group (always a non-empty digit string). -/
def pyIntOfDigits (s : String) : Int := (strToNatCore s.data : Int)

/-- Python truthiness of an `Optional[int]`: `None` and `0` are falsy. -/
def pyFalsyOptInt : Option Int → Bool
  | none => true
  | some i => i = 0

/-- Python truthiness of an optional list: `None` and `[]` are falsy. -/
def pyTruthyOptList : Option (List α) → Bool
  | none => false
  | some l => !l.isEmpty

/-! ## Errors

Modelled from the spec (§7) and `src/defs/exceptions.py` (not included in
the sources): the repository's exception classes, all of which derive from
`AutoAcmgBaseException`, plus the Python builtins that can escape the
embedded code paths. -/

/-- Exception values raised by the embedded code. -/
inductive PyErr where
  /-- `ParseError` — no accepted grammar matched. -/
  | parseError : PyErr
  /-- `InvalidPos` — coordinates violate the §3 invariants. -/
  | invalidPos : PyErr
  /-- `MissingDataError` — a required upstream field is absent. -/
  | missingDataError : PyErr
  /-- `AlgorithmError` — an internal predicate invariant was violated. -/
  | algorithmError : PyErr
  /-- `InvalidAPIResposeError` (sic) — upstream payload present but unusable. -/
  | invalidAPIResposeError : PyErr
  /-- Python `KeyError`, e.g. from `GenomeRelease[name]` on an unknown name. -/
  | keyError : PyErr
  /-- Python `IndexError`, e.g. `exons[0]` on an empty list. -/
  | indexError : PyErr
  /-- Python `ZeroDivisionError`. -/
  | zeroDivisionError : PyErr
  deriving DecidableEq, Repr

/-- Membership in the `AutoAcmgBaseException` class hierarchy, matched by
`except AutoAcmgBaseException` clauses. -/
def PyErr.isAutoAcmgBase : PyErr → Bool
  | .parseError | .invalidPos | .missingDataError | .algorithmError
  | .invalidAPIResposeError => true
  | .keyError | .indexError | .zeroDivisionError => false

/-! ## Genome model

Modelled from the spec (§3, §6): `GenomeRelease`, the hard-coded
chromosome-length tables and the RefSeq accession tables live in
`src/defs/genome_builds.py`, which is not among the provided sources.  The
lengths and accession versions below are the standard reference values; the
proofs depend only on which keys are present, not on the exact numbers. -/

/-- Genome release (assembly). -/
inductive GenomeRelease where
  | GRCh37 : GenomeRelease
  | GRCh38 : GenomeRelease
  deriving DecidableEq, Repr

/-- `GenomeRelease.name`: the Python `Enum` member name. -/
def GenomeRelease.name : GenomeRelease → String
  | .GRCh37 => "GRCh37"
  | .GRCh38 => "GRCh38"

/-- `GenomeRelease[value]`: case-sensitive `Enum` lookup by member name;
`none` models the `KeyError` case. -/
def genomeReleaseOfName (s : String) : Option GenomeRelease :=
  if s = "GRCh37" then some .GRCh37
  else if s = "GRCh38" then some .GRCh38
  else none

/-- Modelled from the spec: hard-coded GRCh37 chromosome-length table
(`CHROM_LENGTHS_37` in the missing `genome_builds.py`). -/
def CHROM_LENGTHS_37 : List (String × Int) :=
  [("1", 249250621), ("2", 243199373), ("3", 198022430), ("4", 191154276),
   ("5", 180915260), ("6", 171115067), ("7", 159138663), ("8", 146364022),
   ("9", 141213431), ("10", 135534747), ("11", 135006516), ("12", 133851895),
   ("13", 115169878), ("14", 107349540), ("15", 102531392), ("16", 90354753),
   ("17", 81195210), ("18", 78077248), ("19", 59128983), ("20", 63025520),
   ("21", 48129895), ("22", 51304566), ("X", 155270560), ("Y", 59373566),
   ("MT", 16569)]

/-- Modelled from the spec: hard-coded GRCh38 chromosome-length table
(`CHROM_LENGTHS_38` in the missing `genome_builds.py`). -/
def CHROM_LENGTHS_38 : List (String × Int) :=
  [("1", 248956422), ("2", 242193529), ("3", 198295559), ("4", 190214555),
   ("5", 181538259), ("6", 170805979), ("7", 159345973), ("8", 145138636),
   ("9", 138394717), ("10", 133797422), ("11", 135086622), ("12", 133275309),
   ("13", 114364328), ("14", 107043718), ("15", 101991189), ("16", 90338345),
   ("17", 83257441), ("18", 80373285), ("19", 58617616), ("20", 64444167),
   ("21", 46709983), ("22", 50818468), ("X", 156040895), ("Y", 57227415),
   ("MT", 16569)]

/-- Python `dict.get(key, 0)` over an association list. -/
def pyDictGetInt (d : List (String × Int)) (key : String) : Int :=
  match d.find? (fun p => p.1 = key) with
  | some p => p.2
  | none => 0

/-- Modelled from the spec: `REFSEQ_CHROM_37`, mapping GRCh37 `NC_*`
accessions to chromosome names. -/
def REFSEQ_CHROM_37 : List (String × String) :=
  [("NC_000001.10", "1"), ("NC_000002.11", "2"), ("NC_000003.11", "3"),
   ("NC_000004.11", "4"), ("NC_000005.9", "5"), ("NC_000006.11", "6"),
   ("NC_000007.13", "7"), ("NC_000008.10", "8"), ("NC_000009.11", "9"),
   ("NC_000010.10", "10"), ("NC_000011.9", "11"), ("NC_000012.11", "12"),
   ("NC_000013.10", "13"), ("NC_000014.8", "14"), ("NC_000015.9", "15"),
   ("NC_000016.9", "16"), ("NC_000017.10", "17"), ("NC_000018.9", "18"),
   ("NC_000019.9", "19"), ("NC_000020.10", "20"), ("NC_000021.8", "21"),
   ("NC_000022.10", "22"), ("NC_000023.10", "X"), ("NC_000024.9", "Y"),
   ("NC_012920.1", "MT")]

/-- Modelled from the spec: `REFSEQ_CHROM_38`, mapping GRCh38 `NC_*`
accessions to chromosome names. -/
def REFSEQ_CHROM_38 : List (String × String) :=
  [("NC_000001.11", "1"), ("NC_000002.12", "2"), ("NC_000003.12", "3"),
   ("NC_000004.12", "4"), ("NC_000005.10", "5"), ("NC_000006.12", "6"),
   ("NC_000007.14", "7"), ("NC_000008.11", "8"), ("NC_000009.12", "9"),
   ("NC_000010.11", "10"), ("NC_000011.10", "11"), ("NC_000012.12", "12"),
   ("NC_000013.11", "13"), ("NC_000014.9", "14"), ("NC_000015.10", "15"),
   ("NC_000016.10", "16"), ("NC_000017.11", "17"), ("NC_000018.10", "18"),
   ("NC_000019.10", "19"), ("NC_000020.11", "20"), ("NC_000021.9", "21"),
   ("NC_000022.11", "22"), ("NC_000023.11", "X"), ("NC_000024.10", "Y"),
   ("NC_012920.1", "MT")]

/-- Python `key in dict` / `dict[key]` over an association list. -/
def pyDictFind (d : List (String × String)) (key : String) : Option String :=
  match d.find? (fun p => p.1 = key) with
  | some p => some p.2
  | none => none

/-! ## SeqVar data model (`src/defs/seqvar.py`) -/

/-- A sequence variant, mirroring the fields set by `SeqVar.__init__`. -/
structure SeqVar where
  genome_release : GenomeRelease
  chrom : String
  pos : Int
  delete : String
  insert : String
  user_repr : String
  deriving DecidableEq, Repr

/-- `SeqVar._normalize_chromosome`:
`chrom.lower().replace("chr", "").replace("m", "mt").upper()`. -/
def _normalize_chromosome (chrom : String) : String :=
  pyUpper (pyReplace (pyReplace (pyLower chrom) "chr" "") "m" "mt")

/-- `SeqVarResolver._normalize_chrom` — same body as
`SeqVar._normalize_chromosome`. -/
def _normalize_chrom (value : String) : String :=
  pyUpper (pyReplace (pyReplace (pyLower value) "chr" "") "m" "mt")

/-- `SeqVar.__init__`: normalizes the chromosome, upper-cases the alleles,
and defaults `user_repr` from the normalized chromosome and the *original*
`delete`/`insert` arguments. -/
def SeqVar.make (genome_release : GenomeRelease) (chrom : String) (pos : Int)
    (delete insert : String) (user_repr : Option String) : SeqVar :=
  let nchrom := _normalize_chromosome chrom
  { genome_release := genome_release
    chrom := nchrom
    pos := pos
    delete := pyUpper delete
    insert := pyUpper insert
    user_repr :=
      match user_repr with
      | some r => r
      | none =>
        genome_release.name ++ "-" ++ nchrom ++ "-" ++ pyIntRepr pos ++ "-" ++
          delete ++ "-" ++ insert }

/-! ## C4: chromosome normalization -/

/-- The chromosome bodies accepted by the input grammar, lower-cased:
`[1-9]|1[0-9]|2[0-2]|X|Y|M|MT` of `REGEX_GNOMAD_VARIANT`. -/
def chromBodiesLower : List String :=
  ["1", "2", "3", "4", "5", "6", "7", "8", "9",
   "10", "11", "12", "13", "14", "15", "16", "17", "18", "19",
   "20", "21", "22", "x", "y", "m", "mt"]

/-- All lower-cased chromosome strings accepted by the grammar fragment
`(?i)(chr)?([1-9]|1[0-9]|2[0-2]|X|Y|M|MT)`: since the regex is
case-insensitive and made of literal letters, a string is accepted exactly
when its lower-casing is a body or `"chr"` followed by a body. -/
def acceptedChromLower : List String :=
  chromBodiesLower ++ chromBodiesLower.map (fun b => "chr" ++ b)

/-- The normalized chromosome names the spec allows (§3). -/
def allowedChromNames : List String :=
  ["1", "2", "3", "4", "5", "6", "7", "8", "9",
   "10", "11", "12", "13", "14", "15", "16", "17", "18", "19",
   "20", "21", "22", "X", "Y", "MT"]

/-- `_normalize_chromosome` factors through `pyLower`. -/
def normalizeFromLower (t : String) : String :=
  pyUpper (pyReplace (pyReplace t "chr" "") "m" "mt")

theorem _normalize_chromosome_eq (s : String) :
    _normalize_chromosome s = normalizeFromLower (pyLower s) := rfl

/-- C4 counterexample: the accepted chromosome string `"MT"` is normalized to
`"MTT"` (the `replace("m", "mt")` step rewrites the `m` of `mt`), which is
not one of the allowed chromosome names. -/
theorem C4_mt_normalizes_to_MTT :
    _normalize_chromosome "MT" = "MTT" ∧ "MTT" ∉ allowedChromNames := by
  constructor
  · rfl
  · decide

/-- C4 (amended): for every chromosome string accepted by the grammar, the
constructor strips a leading `chr` and maps `m` to `MT`, yielding one of
`1..22`, `X`, `Y`, `MT` — except that inputs whose lower-casing is `mt` or
`chrmt` are mapped to `MTT`, outside the allowed set. -/
theorem C4_normalize_chromosome (s : String)
    (h : pyLower s ∈ acceptedChromLower) :
    (pyLower s = "mt" ∨ pyLower s = "chrmt" →
      _normalize_chromosome s = "MTT") ∧
    (pyLower s ≠ "mt" ∧ pyLower s ≠ "chrmt" →
      _normalize_chromosome s ∈ allowedChromNames ∧
      ((pyLower s = "m" ∨ pyLower s = "chrm") →
        _normalize_chromosome s = "MT")) := by
  rw [_normalize_chromosome_eq]
  revert h
  generalize pyLower s = t
  intro h
  fin_cases h <;> decide

/-- C4 witness: the hypothesis and both conclusions hold at the concrete
accepted input `"chrX"`. -/
theorem C4_normalize_chromosome_witness :
    _normalize_chromosome "chrX" ∈ allowedChromNames := by
  have h : pyLower "chrX" ∈ acceptedChromLower := by decide
  exact ((C4_normalize_chromosome "chrX" h).2 (by decide)).1

/-! ## Transcript data model (`src/defs/mehari.py`, not among the sources)

Modelled from the spec (§3): an exon carries genomic start/end and
CDS-clipped start/end; a transcript's CDS info carries start/stop codons,
CDS bounds, strand and exons.  Field names follow the call sites in
`seqvar_pvs1.py` (`altStartI`, `altEndI`, `altCdsStartI`, `altCdsEndI`). -/

/-- Genomic strand. -/
inductive GenomicStrand where
  | Plus : GenomicStrand
  | Minus : GenomicStrand
  deriving DecidableEq, Repr

/-- An exon of a genome alignment. -/
structure Exon where
  altStartI : Int
  altEndI : Int
  altCdsStartI : Int
  altCdsEndI : Int
  deriving DecidableEq, Repr

/-- CDS information of one transcript (`CdsInfo` in `defs/auto_pvs1.py`,
modelled from the spec §3 and the construction in `SeqVarPVS1.initialize`). -/
structure CdsInfo where
  start_codon : Int
  stop_codon : Int
  cds_start : Int
  cds_end : Int
  cds_strand : GenomicStrand
  exons : List Exon
  deriving DecidableEq, Repr

/-! ## `undergo_nmd` (`SeqVarPVS1Helper.undergo_nmd`) -/

/-- `SeqVarPVS1Helper.undergo_nmd`.  GJB2 (`HGNC:4284`) short-circuits to
`True`; a missing strand or empty exon list raises `MissingDataError`;
otherwise the exon CDS sizes are taken in transcription order (reversed on
the minus strand), a single exon yields `False`, and otherwise the new stop
position is compared against `sum(tx_sizes[:-1]) - min(50, tx_sizes[-2])`. -/
def undergo_nmd (var_pos : Int) (hgnc_id : String)
    (strand : Option GenomicStrand) (exons : List Exon) :
    Except PyErr Bool :=
  if hgnc_id = "HGNC:4284" then
    .ok true
  else if strand = none ∨ exons = [] then
    .error .missingDataError
  else
    let tx_sizes := exons.map (fun e => e.altCdsEndI - e.altCdsStartI + 1)
    let tx_sizes := if strand = some .Minus then tx_sizes.reverse else tx_sizes
    if tx_sizes.length = 1 then
      .ok false
    else
      let nmd_cutoff := tx_sizes.dropLast.sum -
        min 50 (tx_sizes.getD (tx_sizes.length - 2) 0)
      .ok (var_pos ≤ nmd_cutoff)

/-- C7: `undergo_nmd` returns `True` for `HGNC:4284` (GJB2) regardless of
position, strand (even missing) and exon list (even empty). -/
theorem C7_undergo_nmd_gjb2 (var_pos : Int) (strand : Option GenomicStrand)
    (exons : List Exon) :
    undergo_nmd var_pos "HGNC:4284" strand exons = .ok true := rfl

/-- C10: for a gene other than GJB2, a missing strand or an empty exon list
makes `undergo_nmd` raise `MissingDataError`. -/
theorem C10_undergo_nmd_missing_data (var_pos : Int) (hgnc_id : String)
    (strand : Option GenomicStrand) (exons : List Exon)
    (hg : hgnc_id ≠ "HGNC:4284") (hm : strand = none ∨ exons = []) :
    undergo_nmd var_pos hgnc_id strand exons = .error .missingDataError := by
  rw [undergo_nmd]
  rw [if_neg hg, if_pos hm]

/-- C10 witness: `undergo_nmd` at a concrete gene with a missing strand. -/
theorem C10_undergo_nmd_missing_data_witness :
    undergo_nmd 100 "HGNC:9588" none [⟨1, 2, 1, 2⟩] =
      .error .missingDataError :=
  C10_undergo_nmd_missing_data 100 "HGNC:9588" none [⟨1, 2, 1, 2⟩]
    (by decide) (Or.inl rfl)

/-- The exon CDS sizes in transcription order, as the claim states them. -/
def nmdSizes (strand : GenomicStrand) (exons : List Exon) : List Int :=
  let sizes := exons.map (fun e => e.altCdsEndI - e.altCdsStartI + 1)
  match strand with
  | .Minus => sizes.reverse
  | .Plus => sizes

/-- C6: for a gene other than GJB2 with a known strand and a non-empty exon
list, `undergo_nmd` returns `False` for a single exon, and otherwise returns
`True` exactly when the new stop position is at most
`sum(sizes[0..last]) - min(50, sizes[last-1])`, the sum ranging over all but
the last exon in transcription order. -/
theorem C6_undergo_nmd_cutoff (var_pos : Int) (hgnc_id : String)
    (s : GenomicStrand) (exons : List Exon)
    (hg : hgnc_id ≠ "HGNC:4284") (he : exons ≠ []) :
    undergo_nmd var_pos hgnc_id (some s) exons =
      (if exons.length = 1 then .ok false
       else
         .ok (var_pos ≤ (nmdSizes s exons).dropLast.sum -
           min 50 ((nmdSizes s exons).getD ((nmdSizes s exons).length - 2) 0))) := by
  rw [undergo_nmd, if_neg hg, if_neg (by simp [he])]
  cases s with
  | Plus => simp [nmdSizes]
  | Minus => simp [nmdSizes]

/-- C6 witness: a two-exon minus-strand transcript evaluated concretely; the
sizes in transcription order are `[100, 31]`, the cutoff is
`100 - min 50 100 = 50`, and a new stop at 50 undergoes NMD. -/
theorem C6_undergo_nmd_cutoff_witness :
    undergo_nmd 50 "HGNC:1100" (some .Minus)
      [⟨200, 231, 201, 231⟩, ⟨0, 100, 1, 100⟩] = .ok true := by
  have h := C6_undergo_nmd_cutoff 50 "HGNC:1100" .Minus
    [⟨200, 231, 201, 231⟩, ⟨0, 100, 1, 100⟩] (by decide) (by decide)
  rw [h]
  rfl

/-! ## Annonars range-query contract

Modelled from the spec (§4.2, §6): the JSON subset of
`AnnonarsRangeResponse` the core reads (`src/types/annonars.py` is not among
the sources; the field paths follow §6 and the call sites in
`seqvar_pvs1.py`).  `AnnonarsClient.get_variant_from_range` returns `None`
on transport or validation errors, so the oracle yields an
`Option RangeResult`. -/

/-- `…germlineClassification` with its `description`. -/
structure GermlineClassification where
  description : Option String
  deriving DecidableEq, Repr

/-- `…records[*].classifications`. -/
structure ClinvarClassifications where
  germlineClassification : Option GermlineClassification
  deriving DecidableEq, Repr

/-- One element of `clinvar[*].records`. -/
structure ClinvarRecord where
  classifications : Option ClinvarClassifications
  deriving DecidableEq, Repr

/-- One element of `result.clinvar`. -/
structure RangeClinvarItem where
  records : Option (List ClinvarRecord)
  deriving DecidableEq, Repr

/-- One element of `gnomad_genomes[*].vep`. -/
structure RangeVep where
  consequence : Option String
  deriving DecidableEq, Repr

/-- One element of `gnomad_genomes[*].alleleCounts`; `afPopmax` is the only
field read.  Python floats are modelled as exact rationals. -/
structure RangeAlleleCount where
  afPopmax : Option ℚ
  deriving DecidableEq, Repr

/-- One element of `result.gnomad_genomes`. -/
structure RangeGnomadItem where
  vep : Option (List RangeVep)
  alleleCounts : Option (List RangeAlleleCount)
  deriving DecidableEq, Repr

/-- The `result` object of an `AnnonarsRangeResponse`. -/
structure RangeResult where
  clinvar : Option (List RangeClinvarItem)
  gnomad_genomes : Option (List RangeGnomadItem)
  deriving DecidableEq, Repr

/-- Oracle for `AnnonarsClient.get_variant_from_range(seqvar, start, stop)`:
`none` models the client's `None` return on transport/validation errors. -/
abbrev RangeOracle := SeqVar → Int → Int → Option RangeResult

/-- The ClinVar-pathogenicity filter of `_count_pathogenic_vars`: the item
has a non-empty `records` list whose first record's germline classification
description is `Pathogenic` or `Likely pathogenic`.  Each step mirrors one
conjunct of the Python truthiness chain. -/
def isPathogenicItem (v : RangeClinvarItem) : Bool :=
  match v.records with
  | some (r :: _) =>
    match r.classifications with
    | some cl =>
      match cl.germlineClassification with
      | some g =>
        match g.description with
        | some d => d = "Pathogenic" ∨ d = "Likely pathogenic"
        | none => false
      | none => false
    | none => false
  | some [] => false
  | none => false

/-- `SeqVarPVS1Helper._count_pathogenic_vars`.  Raises `AlgorithmError` on an
inverted range; raises `InvalidAPIResposeError` when the client returned
`None` or the response carries no ClinVar data (`None` or an empty list);
otherwise returns `(pathogenic, total)`. -/
def _count_pathogenic_vars (oracle : RangeOracle) (seqvar : SeqVar)
    (start_pos end_pos : Int) : Except PyErr (Nat × Nat) :=
  if end_pos < start_pos then
    .error .algorithmError
  else
    match oracle seqvar start_pos end_pos with
    | none => .error .invalidAPIResposeError
    | some result =>
      match result.clinvar with
      | some l =>
        if l.isEmpty then
          .error .invalidAPIResposeError
        else
          .ok ((l.filter isPathogenicItem).length, l.length)
      | none => .error .invalidAPIResposeError

/-- `SeqVarPVS1Helper._calc_alt_reg`: the altered region runs from the
variant to the last exon's end on the plus strand, and from the first exon's
start to the variant on the minus strand.  Indexing an empty exon list is a
Python `IndexError`. -/
def _calc_alt_reg (var_pos : Int) (exons : List Exon) (strand : GenomicStrand) :
    Except PyErr (Int × Int) :=
  match strand with
  | .Plus =>
    match exons.getLast? with
    | some le => .ok (var_pos, le.altEndI)
    | none => .error .indexError
  | .Minus =>
    match exons.head? with
    | some fe => .ok (fe.altStartI, var_pos)
    | none => .error .indexError

/-- The `try` body of `crit4prot_func`, with exception propagation written
as explicit matches: compute the altered region, count pathogenic ClinVar
variants, guard a zero total, and compare the pathogenic fraction against
`0.05`. -/
def crit4prot_func_body (oracle : RangeOracle) (seqvar : SeqVar)
    (exons : List Exon) (s : GenomicStrand) : Except PyErr Bool :=
  match _calc_alt_reg seqvar.pos exons s with
  | .error e => .error e
  | .ok (start_pos, end_pos) =>
    match _count_pathogenic_vars oracle seqvar start_pos end_pos with
    | .error e => .error e
    | .ok (pathogenic_variants, total_variants) =>
      if total_variants = 0 then
        .ok false
      else
        .ok (decide
          ((pathogenic_variants : ℚ) / (total_variants : ℚ) > 0.05))

/-- `SeqVarPVS1Helper.crit4prot_func`.  A missing strand or empty exon list
raises `MissingDataError`; any `AutoAcmgBaseException` escaping the body is
converted to `AlgorithmError` by the `except` clause. -/
def crit4prot_func (oracle : RangeOracle) (seqvar : SeqVar) (exons : List Exon)
    (strand : Option GenomicStrand) : Except PyErr Bool :=
  match strand with
  | none => .error .missingDataError
  | some s =>
    if exons = [] then
      .error .missingDataError
    else
      match crit4prot_func_body oracle seqvar exons s with
      | .ok b => .ok b
      | .error e =>
        if e.isAutoAcmgBase then .error .algorithmError else .error e

/-- The range query reported zero ClinVar records: a response arrived but its
`clinvar` field is absent or an empty list. -/
def reportsNoClinvar : Option RangeResult → Prop
  | some r => r.clinvar = none ∨ r.clinvar = some []
  | none => False

/-- C2 counterexample: with a response reporting zero ClinVar records, the
concrete call raises `AlgorithmError` instead of returning `False`
(`_count_pathogenic_vars` raises `InvalidAPIResposeError` before the
zero-total guard of `crit4prot_func` can run, and the `except` clause
converts it). -/
theorem C2_zero_clinvar_raises :
    crit4prot_func (fun _ _ _ => some ⟨some [], none⟩)
        ⟨.GRCh38, "1", 100, "A", "T", "1-100-A-T"⟩
        [⟨50, 200, 60, 190⟩] (some .Plus) = .error .algorithmError ∧
      crit4prot_func (fun _ _ _ => some ⟨some [], none⟩)
        ⟨.GRCh38, "1", 100, "A", "T", "1-100-A-T"⟩
        [⟨50, 200, 60, 190⟩] (some .Plus) ≠ .ok false := by
  constructor
  · rfl
  · intro h
    rw [show crit4prot_func (fun _ _ _ => some ⟨some [], none⟩)
        ⟨.GRCh38, "1", 100, "A", "T", "1-100-A-T"⟩
        [⟨50, 200, 60, 190⟩] (some .Plus) = .error .algorithmError from rfl]
      at h
    exact Except.noConfusion h

/-- C2 (amended): whenever the range query reports zero ClinVar records,
`crit4prot_func` raises `AlgorithmError` (no division by zero is executed,
but no `False` verdict is returned either: `_count_pathogenic_vars` treats
the empty ClinVar list as `InvalidAPIResposeError`, which the surrounding
`except` clause converts to `AlgorithmError`, so the `total == 0` guard in
`crit4prot_func` is unreachable). -/
theorem C2_zero_clinvar_always_algorithm_error (oracle : RangeOracle)
    (seqvar : SeqVar) (exons : List Exon) (s : GenomicStrand)
    (he : exons ≠ [])
    (hz : ∀ st en, reportsNoClinvar (oracle seqvar st en)) :
    crit4prot_func oracle seqvar exons (some s) = .error .algorithmError := by
  have hcount : ∀ st en, ∃ e, _count_pathogenic_vars oracle seqvar st en =
      .error e ∧ e.isAutoAcmgBase = true := by
    intro st en
    have h := hz st en
    rw [_count_pathogenic_vars]
    by_cases hlt : en < st
    · exact ⟨.algorithmError, by rw [if_pos hlt], rfl⟩
    · refine ⟨.invalidAPIResposeError, ?_, rfl⟩
      rw [if_neg hlt]
      cases hor : oracle seqvar st en with
      | none => rfl
      | some r =>
        rw [hor] at h
        rcases h with h | h <;> simp [h]
  obtain ⟨st, en, hreg⟩ :
      ∃ st en, _calc_alt_reg seqvar.pos exons s = .ok (st, en) := by
    rw [_calc_alt_reg.eq_def]
    cases s with
    | Plus =>
      cases hl : exons.getLast? with
      | some le => exact ⟨seqvar.pos, le.altEndI, by simp [hl]⟩
      | none => exact absurd (List.getLast?_eq_none_iff.mp hl) he
    | Minus =>
      cases hl : exons.head? with
      | some fe => exact ⟨fe.altStartI, seqvar.pos, by simp [hl]⟩
      | none => exact absurd (List.head?_eq_none_iff.mp hl) he
  obtain ⟨e, hce, hbase⟩ := hcount st en
  have hbody : crit4prot_func_body oracle seqvar exons s = .error e := by
    simp only [crit4prot_func_body, hreg, hce]
  have hred : crit4prot_func oracle seqvar exons (some s) =
      (if exons = [] then .error .missingDataError
       else
         match crit4prot_func_body oracle seqvar exons s with
         | .ok b => .ok b
         | .error e =>
           if e.isAutoAcmgBase then .error .algorithmError
           else .error e) := rfl
  rw [hred, if_neg he, hbody]
  simp [hbase]

/-! ## Remaining helper predicates of `SeqVarPVS1Helper` -/

/-- `SeqVarPVS1Helper.in_bio_relevant_tsx`: the exact tag `ManeSelect` is
present (case-sensitive). -/
def in_bio_relevant_tsx (transcript_tags : List String) : Bool :=
  transcript_tags.contains "ManeSelect"

/-- `SeqVarPVS1Helper.lof_rm_gt_10pct_of_prot`: compare
`prot_pos / prot_length` against `0.1` (Python true division; a zero length
is a `ZeroDivisionError`). -/
def lof_rm_gt_10pct_of_prot (prot_pos prot_length : Int) : Except PyErr Bool :=
  if prot_length = 0 then
    .error .zeroDivisionError
  else
    .ok (decide ((prot_pos : ℚ) / (prot_length : ℚ) > 0.1))

/-- `SeqVarPVS1Helper._find_aff_exon_pos`: the first exon whose
`[altStartI, altEndI]` interval contains the variant position, else
`AlgorithmError`. -/
def _find_aff_exon_pos (var_pos : Int) (exons : List Exon) :
    Except PyErr (Int × Int) :=
  match exons.find? (fun e => e.altStartI ≤ var_pos ∧ var_pos ≤ e.altEndI) with
  | some exon => .ok (exon.altStartI, exon.altEndI)
  | none => .error .algorithmError

/-- Modelled from the spec (§4.4): the raw VEP consequence strings mapped to
the NonsenseFrameshift category (`_get_conseq(SeqVarConsequence.NonsenseFrameshift)`
over `SeqvarConsequenceMapping`, which lives in the missing
`defs/auto_pvs1.py`; the spec lists these members). -/
def nonsenseFrameshiftConseqs : List String :=
  ["frameshift_variant", "stop_gained", "3_prime_utr_variant"]

/-- One `vep` entry of a gnomAD-genomes record counts as LoF when its
consequence is in the NonsenseFrameshift list (`None` is never in it). -/
def vepIsLof (vep : RangeVep) : Bool :=
  match vep.consequence with
  | some c => nonsenseFrameshiftConseqs.contains c
  | none => false

/-- A gnomAD-genomes record has a frequent allele: some `alleleCounts` entry
has a truthy `afPopmax` exceeding `0.001` (the `break` in the source makes
the inner loop contribute at most once, i.e. an existence check; a `None` or
`0.0` `afPopmax` is falsy and `0.0 > 0.001` is false anyway). -/
def hasFrequentAllele (variant : RangeGnomadItem) : Bool :=
  match variant.alleleCounts with
  | some counts =>
    counts.any (fun allele =>
      match allele.afPopmax with
      | some f => decide (f > 0.001)
      | none => false)
  | none => false

/-- The loop body of `_count_lof_vars` accumulating
`(frequent_lof_variants, lof_variants)`: records without `vep` are skipped;
each LoF `vep` entry increments `lof_variants`, and also
`frequent_lof_variants` when the record has a frequent allele. -/
def lofCounts (items : List RangeGnomadItem) : Nat × Nat :=
  items.foldl
    (fun acc variant =>
      if !pyTruthyOptList variant.vep then acc
      else
        (variant.vep.getD []).foldl
          (fun acc2 vep =>
            if vepIsLof vep then
              (acc2.1 + (if hasFrequentAllele variant then 1 else 0),
               acc2.2 + 1)
            else acc2)
          acc)
    (0, 0)

/-- `SeqVarPVS1Helper._count_lof_vars`.  Raises `AlgorithmError` on an
inverted range; raises `InvalidAPIResposeError` when the client returned
`None` or the response carries no gnomAD-genomes data (`None` or an empty
list); otherwise returns `(frequent_lof_variants, lof_variants)`. -/
def _count_lof_vars (oracle : RangeOracle) (seqvar : SeqVar)
    (start_pos end_pos : Int) : Except PyErr (Nat × Nat) :=
  if end_pos < start_pos then
    .error .algorithmError
  else
    match oracle seqvar start_pos end_pos with
    | none => .error .invalidAPIResposeError
    | some result =>
      match result.gnomad_genomes with
      | some l =>
        if l.isEmpty then
          .error .invalidAPIResposeError
        else
          .ok (lofCounts l)
      | none => .error .invalidAPIResposeError

/-- The `try` body of `lof_freq_in_pop`, with exception propagation written
as explicit matches. -/
def lof_freq_in_pop_body (oracle : RangeOracle) (seqvar : SeqVar)
    (exons : List Exon) : Except PyErr Bool :=
  match _find_aff_exon_pos seqvar.pos exons with
  | .error e => .error e
  | .ok (start_pos, end_pos) =>
    match _count_lof_vars oracle seqvar start_pos end_pos with
    | .error e => .error e
    | .ok (frequent_lof_variants, lof_variants) =>
      if lof_variants = 0 then
        .ok false
      else
        .ok (decide
          ((frequent_lof_variants : ℚ) / (lof_variants : ℚ) > 0.1))

/-- `SeqVarPVS1Helper.lof_freq_in_pop`.  A missing strand raises
`MissingDataError` (the exon list is not checked here); any
`AutoAcmgBaseException` escaping the body is converted to `AlgorithmError`
by the `except` clause. -/
def lof_freq_in_pop (oracle : RangeOracle) (seqvar : SeqVar)
    (exons : List Exon) (strand : Option GenomicStrand) : Except PyErr Bool :=
  match strand with
  | none => .error .missingDataError
  | some _ =>
    match lof_freq_in_pop_body oracle seqvar exons with
    | .ok b => .ok b
    | .error e =>
      if e.isAutoAcmgBase then .error .algorithmError else .error e

/-- Python-style dictionary lookup over the `cds_info` association list. -/
def pyDictFindCds (d : List (String × CdsInfo)) (key : String) :
    Option CdsInfo :=
  match d.find? (fun p => p.1 = key) with
  | some p => some p.2
  | none => none

/-- `SeqVarPVS1Helper._closest_alt_start_cdn`.  Raises `MissingDataError`
when the main transcript is absent from `cds_info`; otherwise scans the
transcripts in insertion order, keeping a candidate start codon whenever the
alternative CDS start differs from the main one on the same strand and
either the current candidate is falsy (Python: `None` or `0`) or the new
signed offset from the main start is smaller. -/
def _closest_alt_start_cdn (cds_info : List (String × CdsInfo))
    (hgvs : String) : Except PyErr (Option Int) :=
  match pyDictFindCds cds_info hgvs with
  | none => .error .missingDataError
  | some main =>
    let main_cds_start :=
      if main.cds_strand = .Plus then main.cds_start else main.cds_end
    let main_strand := main.cds_strand
    .ok (cds_info.foldl
      (fun closest p =>
        if p.1 = hgvs then closest
        else
          let info := p.2
          let alt_cds_start :=
            if info.cds_strand = .Plus then info.cds_start else info.cds_end
          if alt_cds_start ≠ main_cds_start ∧ main_strand = info.cds_strand then
            if pyFalsyOptInt closest ∨
                alt_cds_start - main_cds_start <
                  closest.getD 0 - main_cds_start then
              some alt_cds_start
            else closest
          else closest)
      none)

/-- `SeqVarPVS1Helper.alt_start_cdn`: `True` exactly when
`_closest_alt_start_cdn` finds some alternative start codon. -/
def alt_start_cdn (cds_info : List (String × CdsInfo)) (hgvs : String) :
    Except PyErr Bool :=
  match _closest_alt_start_cdn cds_info hgvs with
  | .error e => .error e
  | .ok alt_start => .ok (alt_start ≠ none)

/-- `SeqVarPVS1Helper.up_pathogenic_vars`.  A missing strand raises
`MissingDataError`; the scan range runs from the first exon's start to the
closest alternative start codon on the plus strand (and symmetrically on the
minus strand, the exon indexing raising `IndexError` on an empty list); a
falsy bound (Python: `None` or `0`) raises `AlgorithmError`; otherwise the
pathogenic count over the range is compared against zero, with
`AutoAcmgBaseException` from the count converted to `AlgorithmError`. -/
def up_pathogenic_vars (oracle : RangeOracle) (seqvar : SeqVar)
    (exons : List Exon) (strand : Option GenomicStrand)
    (cds_info : List (String × CdsInfo)) (hgvs : String) :
    Except PyErr Bool :=
  match strand with
  | none => .error .missingDataError
  | some s =>
    let bounds : Except PyErr (Option Int × Option Int) :=
      match s with
      | .Plus =>
        match exons.head? with
        | none => .error .indexError
        | some e0 =>
          match _closest_alt_start_cdn cds_info hgvs with
          | .error e => .error e
          | .ok cl => .ok (some e0.altStartI, cl)
      | .Minus =>
        match _closest_alt_start_cdn cds_info hgvs with
        | .error e => .error e
        | .ok cl =>
          match exons.getLast? with
          | none => .error .indexError
          | some el => .ok (cl, some el.altEndI)
    match bounds with
    | .error e => .error e
    | .ok (start_pos, end_pos) =>
      if pyFalsyOptInt start_pos ∨ pyFalsyOptInt end_pos then
        .error .algorithmError
      else
        match _count_pathogenic_vars oracle seqvar
            (start_pos.getD 0) (end_pos.getD 0) with
        | .ok pt => .ok (decide (pt.1 > 0))
        | .error e =>
          if e.isAutoAcmgBase then .error .algorithmError else .error e

/-- `SeqVarPVS1Helper._skipping_exon_pos`: the first exon whose window
`[altStartI - 9, altEndI + 23]` contains the variant position; a falsy bound
(Python: `None` or `0`) raises `AlgorithmError`. -/
def _skipping_exon_pos (seqvar : SeqVar) (exons : List Exon) :
    Except PyErr (Int × Int) :=
  let found := exons.find? (fun exon =>
    exon.altStartI - 9 ≤ seqvar.pos ∧ seqvar.pos ≤ exon.altEndI + 23)
  let start_pos : Option Int := found.map (fun e => e.altStartI)
  let end_pos : Option Int := found.map (fun e => e.altEndI)
  if pyFalsyOptInt start_pos ∨ pyFalsyOptInt end_pos then
    .error .algorithmError
  else
    .ok (start_pos.getD 0, end_pos.getD 0)

/-- A cryptic splice site candidate `(position, context, maxent score)`.
Modelled from the spec (§4.5): produced by the `SplicingPrediction`
collaborator (`src/utils.py`, not among the sources). -/
structure CrypticSite where
  pos : Int
  context : String
  score : ℚ
  deriving DecidableEq, Repr

/-- `SeqVarPVS1Helper.exon_skip_or_cryptic_ss_disrupt`.  A missing strand
raises `MissingDataError`.  If the affected exon's genomic length is not a
multiple of 3 the answer is `True`; otherwise the cryptic splice sites which
the `SplicingPrediction` collaborator returns for the ±20 window (supplied
here as the `crypticSites` oracle) are scanned for one whose distance to the
variant is not a multiple of 3. -/
def exon_skip_or_cryptic_ss_disrupt (crypticSites : List CrypticSite)
    (seqvar : SeqVar) (exons : List Exon) (consequences : List String)
    (strand : Option GenomicStrand) : Except PyErr Bool :=
  match strand with
  | none => .error .missingDataError
  | some _ =>
    match _skipping_exon_pos seqvar exons with
    | .error e => .error e
    | .ok (start_pos, end_pos) =>
      if (end_pos - start_pos) % 3 ≠ 0 then
        .ok true
      else
        .ok (crypticSites.any (fun site =>
          (site.pos - seqvar.pos).natAbs % 3 ≠ 0))

/-! ## PVS1 decision engine (`SeqVarPVS1.verify_PVS1`)

The engine methods call the helper predicates; to make the invocation order
observable (spec §5) the engine is written in a small state monad `M` that
threads the list of helper invocations performed so far.  `M.lift l r`
performs one helper call: it appends the label `l` and yields the helper's
result `r`, aborting on an exception exactly as the Python call would. -/

/-- Labels of the engine-level helper predicate invocations. -/
inductive PredLabel where
  | D : PredLabel
  | N : PredLabel
  | crit : PredLabel
  | lof : PredLabel
  | biorel : PredLabel
  | rm10 : PredLabel
  | altStart : PredLabel
  | upPath : PredLabel
  deriving DecidableEq, Repr

/-- Engine computations: an invocation log in, a result (or the propagated
exception) and the extended log out. -/
def M (α : Type) : Type := List PredLabel → Except PyErr α × List PredLabel

/-- Sequencing in `M`: exceptions abort the rest, keeping the log. -/
def M.bind (x : M α) (f : α → M β) : M β := fun log =>
  match x log with
  | (.ok a, log2) => f a log2
  | (.error e, log2) => (.error e, log2)

/-- Returning a pure value in `M`. -/
def M.pure (a : α) : M α := fun log => (.ok a, log)

instance : Monad M where
  pure := M.pure
  bind := M.bind

/-- One helper-predicate call: log the label, yield the helper's result. -/
def M.lift (l : PredLabel) (r : Except PyErr α) : M α := fun log =>
  (r, log ++ [l])

/-- Python `A() and B()`: evaluate `A`; only evaluate `B` when `A` is
truthy. -/
def pyAndM (a b : M Bool) : M Bool := do
  let x ← a
  if x then b else pure false

/-- Python `A() or B()`: evaluate `A`; only evaluate `B` when `A` is
falsy. -/
def pyOrM (a b : M Bool) : M Bool := do
  let x ← a
  if x then pure true else b

/-- The consequence category dispatched on by the engine
(`SeqVarConsequence` in the missing `defs/auto_pvs1.py`; members per the
spec §3). -/
inductive SeqVarConsequence where
  | NonsenseFrameshift : SeqVarConsequence
  | SpliceSites : SeqVarConsequence
  | InitiationCodon : SeqVarConsequence
  | Missense : SeqVarConsequence
  | NotSet : SeqVarConsequence
  deriving DecidableEq, Repr

/-- Verdict levels (`PVS1Prediction` in the missing `defs/auto_pvs1.py`;
members per the spec §3). -/
inductive PVS1Prediction where
  | NotPVS1 : PVS1Prediction
  | PVS1 : PVS1Prediction
  | PVS1_Strong : PVS1Prediction
  | PVS1_Moderate : PVS1Prediction
  | PVS1_Supporting : PVS1Prediction
  | UnsupportedConsequence : PVS1Prediction
  | NotSet : PVS1Prediction
  deriving DecidableEq, Repr

/-- Decision-path leaves (`PVS1PredictionSeqVarPath` in the missing
`defs/auto_pvs1.py`; members per the spec §4.8). -/
inductive PVS1PredictionSeqVarPath where
  | NotSet : PVS1PredictionSeqVarPath
  | PTEN : PVS1PredictionSeqVarPath
  | NF1 : PVS1PredictionSeqVarPath
  | NF2 : PVS1PredictionSeqVarPath
  | NF3 : PVS1PredictionSeqVarPath
  | NF4 : PVS1PredictionSeqVarPath
  | NF5 : PVS1PredictionSeqVarPath
  | NF6 : PVS1PredictionSeqVarPath
  | SS1 : PVS1PredictionSeqVarPath
  | SS2 : PVS1PredictionSeqVarPath
  | SS3 : PVS1PredictionSeqVarPath
  | SS4 : PVS1PredictionSeqVarPath
  | SS5 : PVS1PredictionSeqVarPath
  | SS6 : PVS1PredictionSeqVarPath
  | SS7 : PVS1PredictionSeqVarPath
  | SS8 : PVS1PredictionSeqVarPath
  | SS9 : PVS1PredictionSeqVarPath
  | SS10 : PVS1PredictionSeqVarPath
  | IC1 : PVS1PredictionSeqVarPath
  | IC2 : PVS1PredictionSeqVarPath
  | IC3 : PVS1PredictionSeqVarPath
  deriving DecidableEq, Repr

/-- The attributes of an initialized `SeqVarPVS1` instance (set by
`initialize`), together with the two remote oracles its helper calls
consume. -/
structure PVS1Env where
  seqvar : SeqVar
  consequence : SeqVarConsequence
  consequences : List String
  HGVS : String
  HGNC_id : String
  transcript_tags : List String
  exons : List Exon
  tx_pos_utr : Int
  prot_pos : Int
  prot_length : Int
  cds_info : List (String × CdsInfo)
  strand : Option GenomicStrand
  rangeOracle : RangeOracle
  crypticSites : List CrypticSite

/-- `self.undergo_nmd(self.tx_pos_utr, self.HGNC_id, self.strand, self.exons)`. -/
def callN (env : PVS1Env) : M Bool :=
  M.lift .N (undergo_nmd env.tx_pos_utr env.HGNC_id env.strand env.exons)

/-- `self.exon_skip_or_cryptic_ss_disrupt(self.seqvar, self.exons,
self.consequences, self.strand)`. -/
def callD (env : PVS1Env) : M Bool :=
  M.lift .D (exon_skip_or_cryptic_ss_disrupt env.crypticSites env.seqvar
    env.exons env.consequences env.strand)

/-- `self.in_bio_relevant_tsx(self.transcript_tags)` (never raises). -/
def callBiorel (env : PVS1Env) : M Bool :=
  M.lift .biorel (.ok (in_bio_relevant_tsx env.transcript_tags))

/-- `self.crit4prot_func(self.seqvar, self.exons, self.strand)`. -/
def callCrit (env : PVS1Env) : M Bool :=
  M.lift .crit (crit4prot_func env.rangeOracle env.seqvar env.exons env.strand)

/-- `self.lof_freq_in_pop(self.seqvar, self.exons, self.strand)`. -/
def callLof (env : PVS1Env) : M Bool :=
  M.lift .lof (lof_freq_in_pop env.rangeOracle env.seqvar env.exons env.strand)

/-- `self.lof_rm_gt_10pct_of_prot(self.prot_pos, self.prot_length)`. -/
def callRm10 (env : PVS1Env) : M Bool :=
  M.lift .rm10 (lof_rm_gt_10pct_of_prot env.prot_pos env.prot_length)

/-- `self.alt_start_cdn(self.cds_info, self.HGVS)`. -/
def callAltStart (env : PVS1Env) : M Bool :=
  M.lift .altStart (alt_start_cdn env.cds_info env.HGVS)

/-- `self.up_pathogenic_vars(self.seqvar, self.exons, self.strand,
self.cds_info, self.HGVS)`. -/
def callUpPath (env : PVS1Env) : M Bool :=
  M.lift .upPath (up_pathogenic_vars env.rangeOracle env.seqvar env.exons
    env.strand env.cds_info env.HGVS)

/-- The shared tail of the NonsenseFrameshift and SpliceSites trees:
`crit4prot_func`, then `lof_freq_in_pop(...) or not in_bio_relevant_tsx(...)`,
then `lof_rm_gt_10pct_of_prot`, with the four leaves passed in.  The source
spells this block out three times verbatim (NF3–NF6, SS3–SS6, SS10/SS7–SS9);
the leaf arguments keep the instantiations apart. -/
def verdictTail (env : PVS1Env)
    (critLeaf notLeaf strongLeaf moderateLeaf : PVS1PredictionSeqVarPath) :
    M (PVS1Prediction × PVS1PredictionSeqVarPath) := do
  let c ← callCrit env
  if c then
    pure (.PVS1_Strong, critLeaf)
  else
    let nb ← pyOrM (callLof env)
      (do let b ← callBiorel env; pure (!b))
    if nb then
      pure (.NotPVS1, notLeaf)
    else
      let r ← callRm10 env
      if r then
        pure (.PVS1_Strong, strongLeaf)
      else
        pure (.PVS1_Moderate, moderateLeaf)

/-- `SeqVarPVS1.verify_PVS1`, dispatching on the consequence category.  The
initialization guard (`NotSet` consequence, or transcript data absent — the
env models an initialized instance, so only the former) raises
`AlgorithmError`.  The nested `if` of the PTEN override (gene check, then
`prot_pos < 374`, falling through on either failure) is written as the
conjunction of the two tests. -/
def verify_PVS1 (env : PVS1Env) :
    M (PVS1Prediction × PVS1PredictionSeqVarPath) :=
  match env.consequence with
  | .NotSet => fun log => (.error .algorithmError, log)
  | .NonsenseFrameshift => do
    if env.HGNC_id = "HGNC:9588" ∧ env.prot_pos < 374 then
      pure (.PVS1, .PTEN)
    else
      let n ← callN env
      if n then
        let b ← callBiorel env
        if b then pure (.PVS1, .NF1) else pure (.NotPVS1, .NF2)
      else
        verdictTail env .NF3 .NF4 .NF5 .NF6
  | .SpliceSites => do
    let g1 ← pyAndM (callD env) (callN env)
    if g1 then
      let b ← callBiorel env
      if b then pure (.PVS1, .SS1) else pure (.NotPVS1, .SS2)
    else
      let g2 ← pyAndM (callD env) (do let n ← callN env; pure (!n))
      if g2 then
        verdictTail env .SS3 .SS4 .SS5 .SS6
      else
        verdictTail env .SS10 .SS7 .SS8 .SS9
  | .InitiationCodon => do
    let a ← callAltStart env
    if a then
      pure (.NotPVS1, .IC3)
    else
      let u ← callUpPath env
      if u then pure (.PVS1_Moderate, .IC1) else pure (.PVS1_Supporting, .IC2)
  | .Missense => M.pure (.UnsupportedConsequence, .NotSet)

/-! ## Computation lemmas for `M` -/

theorem M_bind_eq (x : M α) (f : α → M β) : x >>= f = M.bind x f := rfl

theorem M_bind_ok {x : M α} (f : α → M β) {log : List PredLabel} {a : α}
    {log2 : List PredLabel} (h : x log = (.ok a, log2)) :
    M.bind x f log = f a log2 := by
  unfold M.bind
  rw [h]

theorem M_bind_error {x : M α} (f : α → M β) {log : List PredLabel}
    {e : PyErr} {log2 : List PredLabel} (h : x log = (.error e, log2)) :
    M.bind x f log = (.error e, log2) := by
  unfold M.bind
  rw [h]

theorem M_lift_apply (l : PredLabel) (r : Except PyErr α)
    (log : List PredLabel) : M.lift l r log = (r, log ++ [l]) := rfl

theorem M_pure_apply (a : α) (log : List PredLabel) :
    (pure a : M α) log = (.ok a, log) := rfl

/-! ## C1: the InitiationCodon IC1/IC2 branch -/

/-- C1: whenever `alt_start_cdn` finds no alternative start codon (the only
way to reach the IC1/IC2 arm of the InitiationCodon tree), the engine raises
`AlgorithmError` instead of returning a verdict: `up_pathogenic_vars`
recomputes `_closest_alt_start_cdn`, obtains `None` again, and raises on the
falsy scan bound.  This holds for any strand and non-empty exon list; the
IC1/IC2 assignments in `verify_PVS1` are unreachable. -/
theorem C1_ic_branch_always_raises (env : PVS1Env) (s : GenomicStrand)
    (hc : env.consequence = .InitiationCodon)
    (halt : _closest_alt_start_cdn env.cds_info env.HGVS = .ok none)
    (hs : env.strand = some s) (he : env.exons ≠ []) :
    (verify_PVS1 env []).1 = .error .algorithmError := by
  have hup : up_pathogenic_vars env.rangeOracle env.seqvar env.exons
      env.strand env.cds_info env.HGVS = .error .algorithmError := by
    rw [up_pathogenic_vars.eq_def, hs]
    cases s with
    | Plus =>
      obtain ⟨e0, h0⟩ : ∃ e0, env.exons.head? = some e0 := by
        cases h0 : env.exons.head? with
        | some e0 => exact ⟨e0, rfl⟩
        | none => exact absurd (List.head?_eq_none_iff.mp h0) he
      simp [h0, halt, pyFalsyOptInt]
    | Minus =>
      obtain ⟨el, h0⟩ : ∃ el, env.exons.getLast? = some el := by
        cases h0 : env.exons.getLast? with
        | some el => exact ⟨el, rfl⟩
        | none => exact absurd (List.getLast?_eq_none_iff.mp h0) he
      simp [h0, halt, pyFalsyOptInt]
  have hastart : alt_start_cdn env.cds_info env.HGVS = .ok false := by
    rw [alt_start_cdn, halt]
    rfl
  have hv : verify_PVS1 env =
      M.bind (callAltStart env) (fun a =>
        if a then M.pure (.NotPVS1, .IC3)
        else M.bind (callUpPath env) (fun u =>
          if u then M.pure (.PVS1_Moderate, .IC1)
          else M.pure (.PVS1_Supporting, .IC2))) := by
    rw [verify_PVS1.eq_def, hc]
    rfl
  rw [hv]
  rw [M_bind_ok _ (show callAltStart env [] = (.ok false, [.altStart]) by
    rw [callAltStart, M_lift_apply, hastart]; rfl)]
  rw [if_neg (by decide)]
  rw [M_bind_error _ (show callUpPath env [.altStart] =
    (.error .algorithmError, [.altStart, .upPath]) by
    rw [callUpPath, M_lift_apply, hup]; rfl)]

/-- C1 witness: a concrete InitiationCodon environment whose `cds_info`
holds only the main transcript (so no alternative start codon exists, as in
scenario S6): the engine raises `AlgorithmError` instead of producing the
IC1/IC2 verdict the spec promises. -/
theorem C1_ic_branch_always_raises_witness :
    (verify_PVS1
      { seqvar := ⟨.GRCh38, "1", 69090, "A", "G", "NC_000001.11:69090:A:G"⟩
        consequence := .InitiationCodon
        consequences := ["initiator_codon_variant"]
        HGVS := "NM_0001"
        HGNC_id := "HGNC:1100"
        transcript_tags := ["ManeSelect"]
        exons := [⟨69000, 70000, 69090, 70000⟩]
        tx_pos_utr := 1
        prot_pos := 1
        prot_length := 300
        cds_info := [("NM_0001", ⟨69090, 70000, 69090, 70000, .Plus, []⟩)]
        strand := some .Plus
        rangeOracle := fun _ _ _ => none
        crypticSites := [] } []).1 = .error .algorithmError := by
  exact C1_ic_branch_always_raises _ .Plus rfl (by rfl) rfl (by decide)

/-! ## C5: the NonsenseFrameshift tree -/

theorem pyAndM_run (x y : M Bool) :
    pyAndM x y = M.bind x (fun v => if v then y else M.pure false) := rfl

theorem pyOrM_run (x y : M Bool) :
    pyOrM x y = M.bind x (fun v => if v then M.pure true else y) := rfl

theorem verdictTail_run (env : PVS1Env)
    (a b c d : PVS1PredictionSeqVarPath) :
    verdictTail env a b c d =
      M.bind (callCrit env) (fun cv =>
        if cv then M.pure (.PVS1_Strong, a)
        else
          M.bind (pyOrM (callLof env)
              (M.bind (callBiorel env) (fun bv => M.pure (!bv)))) (fun nb =>
            if nb then M.pure (.NotPVS1, b)
            else
              M.bind (callRm10 env) (fun rv =>
                if rv then M.pure (.PVS1_Strong, c)
                else M.pure (.PVS1_Moderate, d)))) := rfl

/-- Value of `verdictTail` when its three fallible helpers return booleans:
the shared NF3–NF6 / SS3–SS6 / SS10,SS7–SS9 leaf selection. -/
theorem verdictTail_ok (env : PVS1Env) (cv lv rv : Bool)
    (a b c d : PVS1PredictionSeqVarPath) (log : List PredLabel)
    (hcrit : crit4prot_func env.rangeOracle env.seqvar env.exons env.strand =
      .ok cv)
    (hlof : lof_freq_in_pop env.rangeOracle env.seqvar env.exons env.strand =
      .ok lv)
    (hr : lof_rm_gt_10pct_of_prot env.prot_pos env.prot_length = .ok rv) :
    (verdictTail env a b c d log).1 =
      .ok (if cv then ((.PVS1_Strong : PVS1Prediction), a)
        else if lv || !in_bio_relevant_tsx env.transcript_tags then
          (.NotPVS1, b)
        else if rv then (.PVS1_Strong, c)
        else (.PVS1_Moderate, d)) := by
  cases hb : in_bio_relevant_tsx env.transcript_tags <;> cases cv <;>
    cases lv <;> cases rv <;>
    simp [verdictTail_run, pyOrM_run, M.bind, M.pure, callCrit, callLof,
      callBiorel, callRm10, M.lift, hcrit, hlof, hr, hb]

/-- The NonsenseFrameshift leaf mapping as the claim states it (§4.7):
PTEN override, then NMD with biological relevance, then criticality, then
frequent-LoF or irrelevant transcript, then the 10%-of-protein test. -/
def nfLeafSpec (hgnc_id : String) (prot_pos : Int) (n b cv lv rv : Bool) :
    PVS1Prediction × PVS1PredictionSeqVarPath :=
  if hgnc_id = "HGNC:9588" ∧ prot_pos < 374 then (.PVS1, .PTEN)
  else if n then (if b then (.PVS1, .NF1) else (.NotPVS1, .NF2))
  else if cv then (.PVS1_Strong, .NF3)
  else if lv || !b then (.NotPVS1, .NF4)
  else if rv then (.PVS1_Strong, .NF5)
  else (.PVS1_Moderate, .NF6)

theorem verify_PVS1_nf_run (env : PVS1Env)
    (hc : env.consequence = .NonsenseFrameshift) :
    verify_PVS1 env =
      (if env.HGNC_id = "HGNC:9588" ∧ env.prot_pos < 374 then
        M.pure (.PVS1, .PTEN)
      else
        M.bind (callN env) (fun n =>
          if n then
            M.bind (callBiorel env) (fun b =>
              if b then M.pure (.PVS1, .NF1) else M.pure (.NotPVS1, .NF2))
          else verdictTail env .NF3 .NF4 .NF5 .NF6)) := by
  rw [verify_PVS1.eq_def, hc]
  rfl

/-- C5: in the NonsenseFrameshift branch, whenever the four fallible
predicates return booleans, the engine returns exactly the leaf of the
claim's decision tree (so every combination of predicate outcomes maps to
exactly one leaf of `{PTEN, NF1..NF6}`). -/
theorem C5_nonsense_frameshift_tree (env : PVS1Env) (n cv lv rv : Bool)
    (hc : env.consequence = .NonsenseFrameshift)
    (hn : undergo_nmd env.tx_pos_utr env.HGNC_id env.strand env.exons = .ok n)
    (hcrit : crit4prot_func env.rangeOracle env.seqvar env.exons env.strand =
      .ok cv)
    (hlof : lof_freq_in_pop env.rangeOracle env.seqvar env.exons env.strand =
      .ok lv)
    (hr : lof_rm_gt_10pct_of_prot env.prot_pos env.prot_length = .ok rv) :
    (verify_PVS1 env []).1 =
      .ok (nfLeafSpec env.HGNC_id env.prot_pos n
        (in_bio_relevant_tsx env.transcript_tags) cv lv rv) ∧
    (nfLeafSpec env.HGNC_id env.prot_pos n
        (in_bio_relevant_tsx env.transcript_tags) cv lv rv).2 ∈
      [PVS1PredictionSeqVarPath.PTEN, .NF1, .NF2, .NF3, .NF4, .NF5, .NF6] := by
  rw [verify_PVS1_nf_run env hc]
  by_cases hp : env.HGNC_id = "HGNC:9588" ∧ env.prot_pos < 374
  · constructor
    · simp [hp, M.pure, nfLeafSpec]
    · simp [hp, nfLeafSpec]
  · rw [if_neg hp]
    constructor
    · rw [M_bind_ok _ (show callN env [] = (.ok n, [.N]) by
        rw [callN, M_lift_apply, hn]; rfl)]
      cases n with
      | true =>
        rw [if_pos rfl]
        rw [M_bind_ok _ (show callBiorel env [.N] =
          (.ok (in_bio_relevant_tsx env.transcript_tags), [.N, .biorel])
          from rfl)]
        cases hb : in_bio_relevant_tsx env.transcript_tags <;>
          simp [M.pure, nfLeafSpec, hp, hb]
      | false =>
        rw [if_neg (by decide)]
        rw [verdictTail_ok env cv lv rv _ _ _ _ _ hcrit hlof hr]
        cases hb : in_bio_relevant_tsx env.transcript_tags <;> cases cv <;>
          cases lv <;> cases rv <;> simp [nfLeafSpec, hp, hb]
    · cases n <;> cases in_bio_relevant_tsx env.transcript_tags <;>
        cases cv <;> cases lv <;> cases rv <;> simp [nfLeafSpec, hp]

/-- C5 witness: a concrete two-exon plus-strand environment in which the NMD
predicate returns `True` and the transcript is MANE Select; the engine
returns `PVS1` with path `NF1`, matching the claim's leaf. -/
theorem C5_nonsense_frameshift_tree_witness :
    (verify_PVS1
      { seqvar := ⟨.GRCh38, "1", 50, "A", "T", "1-50-A-T"⟩
        consequence := .NonsenseFrameshift
        consequences := ["stop_gained"]
        HGVS := "NM_0001"
        HGNC_id := "HGNC:1100"
        transcript_tags := ["ManeSelect"]
        exons := [⟨0, 100, 1, 100⟩, ⟨200, 231, 201, 231⟩]
        tx_pos_utr := 40
        prot_pos := 100
        prot_length := 500
        cds_info := [("NM_0001", ⟨1, 231, 1, 231, .Plus, []⟩)]
        strand := some .Plus
        rangeOracle := fun _ _ _ =>
          some ⟨some [⟨some [⟨none⟩]⟩], some [⟨some [], none⟩]⟩
        crypticSites := [] } []).1 = .ok (.PVS1, .NF1) := by
  have h := C5_nonsense_frameshift_tree
    { seqvar := ⟨.GRCh38, "1", 50, "A", "T", "1-50-A-T"⟩
      consequence := .NonsenseFrameshift
      consequences := ["stop_gained"]
      HGVS := "NM_0001"
      HGNC_id := "HGNC:1100"
      transcript_tags := ["ManeSelect"]
      exons := [⟨0, 100, 1, 100⟩, ⟨200, 231, 201, 231⟩]
      tx_pos_utr := 40
      prot_pos := 100
      prot_length := 500
      cds_info := [("NM_0001", ⟨1, 231, 1, 231, .Plus, []⟩)]
      strand := some .Plus
      rangeOracle := fun _ _ _ =>
        some ⟨some [⟨some [⟨none⟩]⟩], some [⟨some [], none⟩]⟩
      crypticSites := [] }
    true (decide ((0 : ℚ) / (1 : ℚ) > 0.05)) false
    (decide ((100 : ℚ) / (500 : ℚ) > 0.1))
    rfl rfl rfl rfl rfl
  exact h.1

/-! ## C8: observable invocation pattern of the SpliceSites branch -/

/-- Per-label invocation counts contributed by one `verdictTail` run. -/
abbrev tailCountsOK (tail : List PredLabel) : Prop :=
  tail.count .D = 0 ∧ tail.count .N = 0 ∧ tail.count .crit ≤ 1 ∧
  tail.count .lof ≤ 1 ∧ tail.count .biorel ≤ 1 ∧ tail.count .rm10 ≤ 1 ∧
  tail.count .altStart = 0 ∧ tail.count .upPath = 0

/-- Invocation bounds of a whole SpliceSites trace. -/
abbrev traceBoundsOK (t : List PredLabel) : Prop :=
  t.count .D ≤ 2 ∧ t.count .N ≤ 2 ∧ t.count .crit ≤ 1 ∧ t.count .lof ≤ 1 ∧
  t.count .biorel ≤ 1 ∧ t.count .rm10 ≤ 1 ∧ t.count .altStart = 0 ∧
  t.count .upPath = 0

theorem traceBoundsOK_append (log0 tail : List PredLabel)
    (h0 : log0.count .D ≤ 2 ∧ log0.count .N ≤ 2 ∧ log0.count .crit = 0 ∧
      log0.count .lof = 0 ∧ log0.count .biorel = 0 ∧ log0.count .rm10 = 0 ∧
      log0.count .altStart = 0 ∧ log0.count .upPath = 0)
    (ht : tailCountsOK tail) : traceBoundsOK (log0 ++ tail) := by
  obtain ⟨a1, a2, a3, a4, a5, a6, a7, a8⟩ := h0
  obtain ⟨b1, b2, b3, b4, b5, b6, b7, b8⟩ := ht
  refine ⟨?_, ?_, ?_, ?_, ?_, ?_, ?_, ?_⟩ <;> rw [List.count_append] <;> omega

/-- Every `verdictTail` run only appends labels, at most one each of
`crit`, `lof`, `biorel`, `rm10`. -/
theorem verdictTail_log (env : PVS1Env) (a b c d : PVS1PredictionSeqVarPath)
    (log : List PredLabel) :
    ∃ tail, ((verdictTail env a b c d) log).2 = log ++ tail ∧
      tailCountsOK tail := by
  cases hcr : crit4prot_func env.rangeOracle env.seqvar env.exons env.strand with
  | error e =>
    refine ⟨[.crit], ?_, by decide⟩
    simp [verdictTail_run, M.bind, M.pure, callCrit, M.lift, hcr]
  | ok cv =>
    cases cv with
    | true =>
      refine ⟨[.crit], ?_, by decide⟩
      simp [verdictTail_run, M.bind, M.pure, callCrit, M.lift, hcr]
    | false =>
      cases hlf : lof_freq_in_pop env.rangeOracle env.seqvar env.exons
          env.strand with
      | error e =>
        refine ⟨[.crit, .lof], ?_, by decide⟩
        simp [verdictTail_run, pyOrM_run, M.bind, M.pure, callCrit, callLof,
          M.lift, hcr, hlf]
      | ok lv =>
        cases lv with
        | true =>
          refine ⟨[.crit, .lof], ?_, by decide⟩
          simp [verdictTail_run, pyOrM_run, M.bind, M.pure, callCrit, callLof,
            M.lift, hcr, hlf]
        | false =>
          cases hb : in_bio_relevant_tsx env.transcript_tags with
          | false =>
            refine ⟨[.crit, .lof, .biorel], ?_, by decide⟩
            simp [verdictTail_run, pyOrM_run, M.bind, M.pure, callCrit,
              callLof, callBiorel, M.lift, hcr, hlf, hb]
          | true =>
            cases hrm : lof_rm_gt_10pct_of_prot env.prot_pos
                env.prot_length with
            | error e =>
              refine ⟨[.crit, .lof, .biorel, .rm10], ?_, by decide⟩
              simp [verdictTail_run, pyOrM_run, M.bind, M.pure, callCrit,
                callLof, callBiorel, callRm10, M.lift, hcr, hlf, hb, hrm]
            | ok rv =>
              refine ⟨[.crit, .lof, .biorel, .rm10], ?_, by decide⟩
              cases rv <;>
                simp [verdictTail_run, pyOrM_run, M.bind, M.pure, callCrit,
                  callLof, callBiorel, callRm10, M.lift, hcr, hlf, hb, hrm]

theorem verify_PVS1_ss_run (env : PVS1Env)
    (hc : env.consequence = .SpliceSites) :
    verify_PVS1 env =
      M.bind (pyAndM (callD env) (callN env)) (fun g1 =>
        if g1 then
          M.bind (callBiorel env) (fun b =>
            if b then M.pure (.PVS1, .SS1) else M.pure (.NotPVS1, .SS2))
        else
          M.bind (pyAndM (callD env)
              (M.bind (callN env) (fun n => M.pure (!n)))) (fun g2 =>
            if g2 then verdictTail env .SS3 .SS4 .SS5 .SS6
            else verdictTail env .SS10 .SS7 .SS8 .SS9)) := by
  rw [verify_PVS1.eq_def, hc]
  rfl

/-- C8 (amended): in every SpliceSites classification the engine invokes
`exon_skip_or_cryptic_ss_disrupt` (D) at most twice and `undergo_nmd` (N) at
most twice — not at most once, because the `elif` guard re-evaluates the
conjunction — while `crit4prot_func`, `lof_freq_in_pop`,
`in_bio_relevant_tsx` and `lof_rm_gt_10pct_of_prot` are each invoked at most
once and the InitiationCodon helpers are never invoked; branches the tree
does not reach trigger no query. -/
theorem C8_splice_sites_invocation_bounds (env : PVS1Env)
    (hc : env.consequence = .SpliceSites) :
    traceBoundsOK ((verify_PVS1 env []).2) := by
  rw [verify_PVS1_ss_run env hc]
  cases hD : exon_skip_or_cryptic_ss_disrupt env.crypticSites env.seqvar
      env.exons env.consequences env.strand with
  | error e =>
    have hg1 : pyAndM (callD env) (callN env) [] = (.error e, [.D]) := by
      simp [pyAndM_run, M.bind, callD, M.lift, hD]
    rw [M_bind_error _ hg1]
    show traceBoundsOK [PredLabel.D]
    decide
  | ok dv =>
    cases dv with
    | false =>
      have hg1 : pyAndM (callD env) (callN env) [] = (.ok false, [.D]) := by
        simp [pyAndM_run, M.bind, M.pure, callD, M.lift, hD]
      rw [M_bind_ok _ hg1, if_neg (by decide)]
      have hg2 : pyAndM (callD env)
          (M.bind (callN env) (fun n => M.pure (!n))) [.D] =
          (.ok false, [.D, .D]) := by
        simp [pyAndM_run, M.bind, M.pure, callD, M.lift, hD]
      rw [M_bind_ok _ hg2, if_neg (by decide)]
      obtain ⟨tail, hteq, htok⟩ :=
        verdictTail_log env .SS10 .SS7 .SS8 .SS9 [.D, .D]
      rw [hteq]
      exact traceBoundsOK_append _ _ (by decide) htok
    | true =>
      cases hN : undergo_nmd env.tx_pos_utr env.HGNC_id env.strand
          env.exons with
      | error e =>
        have hg1 : pyAndM (callD env) (callN env) [] =
            (.error e, [.D, .N]) := by
          simp [pyAndM_run, M.bind, callD, callN, M.lift, hD, hN]
        rw [M_bind_error _ hg1]
        show traceBoundsOK [PredLabel.D, PredLabel.N]
        decide
      | ok nv =>
        cases nv with
        | true =>
          have hg1 : pyAndM (callD env) (callN env) [] =
              (.ok true, [.D, .N]) := by
            simp [pyAndM_run, M.bind, callD, callN, M.lift, hD, hN]
          rw [M_bind_ok _ hg1, if_pos rfl]
          rw [M_bind_ok _ (show callBiorel env [.D, .N] =
            (.ok (in_bio_relevant_tsx env.transcript_tags),
              [.D, .N, .biorel]) from rfl)]
          cases in_bio_relevant_tsx env.transcript_tags <;> decide
        | false =>
          have hg1 : pyAndM (callD env) (callN env) [] =
              (.ok false, [.D, .N]) := by
            simp [pyAndM_run, M.bind, M.pure, callD, callN, M.lift, hD, hN]
          rw [M_bind_ok _ hg1, if_neg (by decide)]
          have hg2 : pyAndM (callD env)
              (M.bind (callN env) (fun n => M.pure (!n))) [.D, .N] =
              (.ok true, [.D, .N, .D, .N]) := by
            simp [pyAndM_run, M.bind, M.pure, callD, callN, M.lift, hD, hN]
          rw [M_bind_ok _ hg2, if_pos rfl]
          obtain ⟨tail, hteq, htok⟩ :=
            verdictTail_log env .SS3 .SS4 .SS5 .SS6 [.D, .N, .D, .N]
          rw [hteq]
          exact traceBoundsOK_append _ _ (by decide) htok

/-- C8 witness: the invocation bounds hold at a concrete SpliceSites
environment. -/
theorem C8_splice_sites_invocation_bounds_witness :
    traceBoundsOK ((verify_PVS1
      { seqvar := ⟨.GRCh38, "1", 150, "A", "T", "1-150-A-T"⟩
        consequence := .SpliceSites
        consequences := ["splice_donor_variant"]
        HGVS := "NM_0001"
        HGNC_id := "HGNC:1100"
        transcript_tags := []
        exons := [⟨100, 202, 100, 202⟩]
        tx_pos_utr := 300
        prot_pos := 100
        prot_length := 500
        cds_info := [("NM_0001", ⟨100, 202, 100, 202, .Plus, []⟩)]
        strand := some .Plus
        rangeOracle := fun _ _ _ => none
        crypticSites := [] } []).2) :=
  C8_splice_sites_invocation_bounds _ rfl

/-- C8 counterexample: at the same kind of concrete SpliceSites environment
(the affected exon's length is a multiple of 3 and no cryptic site exists,
so D is `False`), the engine's trace is `[D, D, crit]` — D is invoked twice,
refuting "each helper predicate is invoked at most once". -/
theorem C8_D_invoked_twice :
    ((verify_PVS1
      { seqvar := ⟨.GRCh38, "1", 150, "A", "T", "1-150-A-T"⟩
        consequence := .SpliceSites
        consequences := ["splice_donor_variant"]
        HGVS := "NM_0001"
        HGNC_id := "HGNC:1100"
        transcript_tags := []
        exons := [⟨100, 202, 100, 202⟩]
        tx_pos_utr := 300
        prot_pos := 100
        prot_length := 500
        cds_info := [("NM_0001", ⟨100, 202, 100, 202, .Plus, []⟩)]
        strand := some .Plus
        rangeOracle := fun _ _ _ => none
        crypticSites := [] } []).2) = [.D, .D, .crit] := by
  rfl

/-! ## Variant resolver (`SeqVarResolver`)

The three input regexes of `src/defs/seqvar.py` are embedded as explicit
field matchers.  This is faithful to the regex semantics because in each
pattern no capture group can match the separator character (`\w`, digits,
the chromosome alternation, `[ACGT]` and the `NC_\d{6}\.\d+` accession all
exclude `-` and `:`), so any successful anchored match must align the group
boundaries with the separator occurrences; a five-field split must use the
optional leading assembly group and a four-field split must omit it. -/

/-- ASCII `\w` of the assembly group (`\w+`). -/
def wordChar (c : Char) : Bool := c.isAlphanum || c = '_'

/-- `\w+`: non-empty, all word characters. -/
def isWordStr (s : String) : Bool := !s.data.isEmpty && s.data.all wordChar

/-- `\d+`: non-empty, all ASCII digits. -/
def isDigitsStr (s : String) : Bool := !s.data.isEmpty && s.data.all Char.isDigit

/-- The characters matched by `[ACGT]+` under `re.IGNORECASE`. -/
def acgtChars : List Char := ['A', 'C', 'G', 'T', 'a', 'c', 'g', 't']

/-- `(?i)[ACGT]+`: non-empty, all (either-case) ACGT letters. -/
def matchACGTi (s : String) : Bool :=
  !s.data.isEmpty && s.data.all (fun c => decide (c ∈ acgtChars))

/-- The chromosome fragment `(?i)(chr)?([1-9]|1[0-9]|2[0-2]|X|Y|M|MT)`: the
pattern is a case-insensitive alternation of literals, so a string matches
exactly when its lower-casing is an accepted body with or without a leading
`chr`. -/
def matchChromI (s : String) : Bool := acceptedChromLower.contains (pyLower s)

/-- The accession fragment `(?i)NC_\d{6}\.\d+` of `REGEX_CANONICAL_SPDI`. -/
def matchNCSeq (s : String) : Bool :=
  match s.data with
  | n :: c :: u :: rest =>
    (n == 'N' || n == 'n') && (c == 'C' || c == 'c') && u == '_' &&
    decide ((rest.take 6).length = 6) && (rest.take 6).all Char.isDigit &&
    (match rest.drop 6 with
     | '.' :: ds => !ds.isEmpty && ds.all Char.isDigit
     | _ => false)
  | _ => false

/-- Group extraction common to `REGEX_GNOMAD_VARIANT` (`sep = '-'`) and
`REGEX_RELAXED_SPDI` (`sep = ':'`): `(assembly?, chrom, pos, ref, alt)`. -/
def parseSeparatedGroups (sep : Char) (value : String) :
    Option (Option String × String × String × String × String) :=
  match splitCh sep value.data with
  | [b, c, p, r, a] =>
    if isWordStr ⟨b⟩ && matchChromI ⟨c⟩ && isDigitsStr ⟨p⟩ &&
        matchACGTi ⟨r⟩ && matchACGTi ⟨a⟩ then
      some (some ⟨b⟩, ⟨c⟩, ⟨p⟩, ⟨r⟩, ⟨a⟩)
    else none
  | [c, p, r, a] =>
    if matchChromI ⟨c⟩ && isDigitsStr ⟨p⟩ && matchACGTi ⟨r⟩ &&
        matchACGTi ⟨a⟩ then
      some (none, ⟨c⟩, ⟨p⟩, ⟨r⟩, ⟨a⟩)
    else none
  | _ => none

/-- `SeqVarResolver._validate_seqvar`: position at least 1, and
`pos + len(delete) - 1` at most the chromosome length looked up with
default 0 in the table of the variant's genome release. -/
def _validate_seqvar (variant : SeqVar) : Except PyErr SeqVar :=
  if variant.pos < 1 then
    .error .invalidPos
  else if variant.pos + (variant.delete.data.length : Int) - 1 >
      pyDictGetInt
        (if variant.genome_release = .GRCh37 then CHROM_LENGTHS_37
         else CHROM_LENGTHS_38)
        variant.chrom then
    .error .invalidPos
  else
    .ok variant

/-- `SeqVarResolver._parse_separated_seqvar`: try the gnomAD (hyphen) match,
then the relaxed-SPDI (colon) match; resolve the assembly group through the
`GenomeRelease` enum (an unknown name is a `KeyError`), normalize the
chromosome, convert the position, upper-case the alleles, construct the
`SeqVar` (with `user_repr = value`) and validate it. -/
def _parse_separated_seqvar (value : String)
    (default_genome_release : GenomeRelease) : Except PyErr SeqVar :=
  match (match parseSeparatedGroups '-' value with
         | some g => some g
         | none => parseSeparatedGroups ':' value) with
  | none => .error .parseError
  | some (gbOpt, chromG, posG, delG, insG) =>
    match (match gbOpt with
           | some gb =>
             (match genomeReleaseOfName gb with
              | some g => .ok g
              | none => .error .keyError : Except PyErr GenomeRelease)
           | none => .ok default_genome_release) with
    | .error e => .error e
    | .ok genome_build =>
      _validate_seqvar
        (SeqVar.make genome_build (_normalize_chrom chromG)
          (pyIntOfDigits posG) (pyUpper delG) (pyUpper insG) (some value))

/-- `SeqVarResolver._parse_canonical_spdi_seqvar`: match the canonical SPDI
shape, upper-case the accession, look it up in the GRCh37 then the GRCh38
RefSeq table (unknown accessions are a `ParseError`), construct and
validate. -/
def _parse_canonical_spdi_seqvar (value : String) : Except PyErr SeqVar :=
  match splitCh ':' value.data with
  | [seqF, p, r, a] =>
    if matchNCSeq ⟨seqF⟩ && isDigitsStr ⟨p⟩ && matchACGTi ⟨r⟩ &&
        matchACGTi ⟨a⟩ then
      match pyDictFind REFSEQ_CHROM_37 (pyUpper ⟨seqF⟩) with
      | some chrom =>
        _validate_seqvar (SeqVar.make .GRCh37 chrom (pyIntOfDigits ⟨p⟩)
          (pyUpper ⟨r⟩) (pyUpper ⟨a⟩) (some value))
      | none =>
        match pyDictFind REFSEQ_CHROM_38 (pyUpper ⟨seqF⟩) with
        | some chrom =>
          _validate_seqvar (SeqVar.make .GRCh38 chrom (pyIntOfDigits ⟨p⟩)
            (pyUpper ⟨r⟩) (pyUpper ⟨a⟩) (some value))
        | none => .error .parseError
    else .error .parseError
  | _ => .error .parseError

/-- The `value` field of a dotty to-SPDI response (`src/types/dotty.py`). -/
structure DottySpdiValue where
  assembly : String
  contig : String
  pos : Int
  reference_deleted : String
  alternate_inserted : String
  deriving DecidableEq, Repr

/-- A dotty to-SPDI response (`src/types/dotty.py`, `DottySpdiResponse`). -/
structure DottySpdiResponse where
  success : Bool
  value : Option DottySpdiValue
  deriving DecidableEq, Repr

/-- `SeqVarResolver.resolve_seqvar`.  The three strategies cascade on
`ParseError` only: any other exception (`InvalidPos`, `KeyError`, transport
errors from the dotty client, modelled by the `dotty` argument's error case)
propagates immediately.  The third strategy constructs the `SeqVar` directly
from the dotty record **without** calling `_validate_seqvar`. -/
def resolve_seqvar (dotty : Except PyErr DottySpdiResponse) (value : String)
    (genome_release : GenomeRelease) : Except PyErr SeqVar :=
  match _parse_separated_seqvar value genome_release with
  | .ok v => .ok v
  | .error e =>
    if e = .parseError then
      match _parse_canonical_spdi_seqvar value with
      | .ok v => .ok v
      | .error e2 =>
        if e2 = .parseError then
          match dotty with
          | .error e3 =>
            if e3 = .parseError then .error .parseError else .error e3
          | .ok spdi =>
            if spdi.success then
              match spdi.value with
              | some v =>
                match genomeReleaseOfName v.assembly with
                | some gr =>
                  .ok (SeqVar.make gr v.contig v.pos v.reference_deleted
                    v.alternate_inserted (some value))
                | none => .error .keyError
              | none => .error .parseError
            else .error .parseError
        else .error e2
    else .error e

/-! ## §3 invariants and the gnomAD rendering -/

/-- A non-empty allele string over upper-case `{A, C, G, T}` (§3). -/
abbrev allACGTupper (s : String) : Prop :=
  s.data ≠ [] ∧ ∀ c ∈ s.data, c ∈ (['A', 'C', 'G', 'T'] : List Char)

/-- The chromosome-length table of a genome release. -/
def chromLengthsOf : GenomeRelease → List (String × Int)
  | .GRCh37 => CHROM_LENGTHS_37
  | .GRCh38 => CHROM_LENGTHS_38

/-- The §3 invariants of a sequence variant: `pos ≥ 1`,
`pos + len(delete) - 1` within the hard-coded chromosome length for the
variant's assembly, and both alleles non-empty over `{A, C, G, T}`. -/
abbrev seqvarInvariants (v : SeqVar) : Prop :=
  1 ≤ v.pos ∧
  v.pos + (v.delete.data.length : Int) - 1 ≤
    pyDictGetInt (chromLengthsOf v.genome_release) v.chrom ∧
  allACGTupper v.delete ∧ allACGTupper v.insert

/-- The gnomAD-form rendering
`assembly-chromosome-position-deleted-inserted` of a variant (the default
`user_repr` format of `SeqVar.__init__`). -/
def render (v : SeqVar) : String :=
  v.genome_release.name ++ "-" ++ v.chrom ++ "-" ++ pyIntRepr v.pos ++ "-" ++
    v.delete ++ "-" ++ v.insert

/-- A canonical variant (§3): normalized chromosome name, the §3 invariants,
and the retained representation is its own gnomAD rendering. -/
abbrev canonicalSeqVar (v : SeqVar) : Prop :=
  v.chrom ∈ allowedChromNames ∧ seqvarInvariants v ∧ v.user_repr = render v

/-! ## Arithmetic of the decimal rendering -/

theorem digitChar_isDigit (k : Nat) (h : k < 10) :
    (digitChar k).isDigit = true := by
  interval_cases k <;> decide

theorem digitChar_toNat (k : Nat) (h : k < 10) :
    (digitChar k).toNat = 48 + k := by
  interval_cases k <;> decide

theorem natToDigitsAux_spec : ∀ fuel n, n < fuel →
    natToDigitsAux fuel n ≠ [] ∧
    (∀ c ∈ natToDigitsAux fuel n, c.isDigit = true) ∧
    strToNatCore (natToDigitsAux fuel n) = n := by
  intro fuel
  induction fuel with
  | zero => exact fun n h => absurd h (Nat.not_lt_zero n)
  | succ f ih =>
    intro n hn
    rw [natToDigitsAux]
    by_cases h10 : n < 10
    · rw [if_pos h10]
      refine ⟨by simp, ?_, ?_⟩
      · intro c hc
        rw [List.mem_singleton] at hc
        rw [hc]
        exact digitChar_isDigit n h10
      · show 0 * 10 + ((digitChar n).toNat - 48) = n
        rw [digitChar_toNat n h10]
        omega
    · rw [if_neg h10]
      have hdiv : n / 10 < f := by
        have h1 : n / 10 < n := Nat.div_lt_self (by omega) (by omega)
        omega
      obtain ⟨hne, hdig, hval⟩ := ih (n / 10) hdiv
      refine ⟨by simp, ?_, ?_⟩
      · intro c hc
        rw [List.mem_append, List.mem_singleton] at hc
        rcases hc with hc | hc
        · exact hdig c hc
        · rw [hc]
          exact digitChar_isDigit _ (Nat.mod_lt n (by omega))
      · rw [strToNatCore, List.foldl_append]
        show (strToNatCore (natToDigitsAux f (n / 10))) * 10 +
          ((digitChar (n % 10)).toNat - 48) = n
        rw [hval, digitChar_toNat _ (Nat.mod_lt n (by omega))]
        omega

theorem natToStr_spec (n : Nat) :
    (natToStr n).data ≠ [] ∧
    (∀ c ∈ (natToStr n).data, c.isDigit = true) ∧
    strToNatCore (natToStr n).data = n :=
  natToDigitsAux_spec (n + 1) n (Nat.lt_succ_self n)

theorem pyIntOfDigits_natToStr (n : Nat) :
    pyIntOfDigits (natToStr n) = (n : Int) := by
  rw [pyIntOfDigits, (natToStr_spec n).2.2]

theorem isDigit_ne_dash {c : Char} (h : c.isDigit = true) : c ≠ '-' := by
  intro he
  rw [he] at h
  exact absurd h (by decide)

theorem isDigit_ne_colon {c : Char} (h : c.isDigit = true) : c ≠ ':' := by
  intro he
  rw [he] at h
  exact absurd h (by decide)

theorem isDigitsStr_natToStr (n : Nat) : isDigitsStr (natToStr n) = true := by
  obtain ⟨hne, hdig, _⟩ := natToStr_spec n
  rw [isDigitsStr]
  rw [Bool.and_eq_true, List.all_eq_true]
  exact ⟨by simpa using hne, hdig⟩

/-! ## Allele-string lemmas -/

theorem upperACGT_of_matchACGTi (s : String) (h : matchACGTi s = true) :
    allACGTupper (pyUpper s) := by
  rw [matchACGTi, Bool.and_eq_true, List.all_eq_true] at h
  obtain ⟨hne, hmem⟩ := h
  constructor
  · show (s.data.map Char.toUpper) ≠ []
    simpa using hne
  · intro c hc
    rw [show (pyUpper s).data = s.data.map Char.toUpper from rfl,
      List.mem_map] at hc
    obtain ⟨c0, hc0, hcu⟩ := hc
    have h0 : c0 ∈ acgtChars := of_decide_eq_true (hmem c0 hc0)
    rw [← hcu]
    fin_cases h0 <;> decide

theorem pyUpper_fix_of_allACGTupper (s : String) (h : allACGTupper s) :
    pyUpper s = s := by
  obtain ⟨-, hmem⟩ := h
  show (⟨s.data.map Char.toUpper⟩ : String) = s
  have : s.data.map Char.toUpper = s.data := by
    rw [show s.data.map Char.toUpper = s.data.map Char.toUpper from rfl]
    calc s.data.map Char.toUpper = s.data.map id := by
          apply List.map_congr_left
          intro c hc
          have := hmem c hc
          fin_cases this <;> decide
      _ = s.data := List.map_id s.data
  rw [this]

theorem allACGTupper_ne_dash {s : String} (h : allACGTupper s) :
    '-' ∉ s.data := by
  intro hd
  exact absurd (h.2 '-' hd) (by decide)

/-! ## Validation inversion -/

theorem validate_ok_inv (w v : SeqVar) (h : _validate_seqvar w = .ok v) :
    v = w ∧ 1 ≤ w.pos ∧
      w.pos + (w.delete.data.length : Int) - 1 ≤
        pyDictGetInt (chromLengthsOf w.genome_release) w.chrom := by
  have htab : (if w.genome_release = .GRCh37 then CHROM_LENGTHS_37
      else CHROM_LENGTHS_38) = chromLengthsOf w.genome_release := by
    cases w.genome_release <;> rfl
  rw [_validate_seqvar, htab] at h
  split_ifs at h with h1 h2
  all_goals first
    | exact absurd h (fun hcontra => Except.noConfusion hcontra)
    | exact ⟨by injection h with h; exact h.symm, by omega, by omega⟩

/-! ## C3: invariants after resolution -/

theorem if_some_inv {G : Prop} [Decidable G] {α : Type} {x y : α}
    (h : (if G then some x else none) = some y) : G ∧ x = y := by
  split at h
  · exact ⟨by assumption, by injection h⟩
  · exact absurd h (by simp)

theorem parseSeparatedGroups_some_inv (sep : Char) (value : String)
    (bo : Option String) (cg pg rg ag : String)
    (h : parseSeparatedGroups sep value = some (bo, cg, pg, rg, ag)) :
    matchChromI cg = true ∧ isDigitsStr pg = true ∧ matchACGTi rg = true ∧
      matchACGTi ag = true := by
  rw [parseSeparatedGroups.eq_def] at h
  split at h
  · obtain ⟨hg, heq⟩ := if_some_inv h
    simp only [Prod.mk.injEq] at heq
    obtain ⟨-, hc, hp, hr, ha⟩ := heq
    rw [← hc, ← hp, ← hr, ← ha]
    simp only [Bool.and_eq_true] at hg
    exact ⟨hg.1.1.1.2, hg.1.1.2, hg.1.2, hg.2⟩
  · obtain ⟨hg, heq⟩ := if_some_inv h
    simp only [Prod.mk.injEq] at heq
    obtain ⟨-, hc, hp, hr, ha⟩ := heq
    rw [← hc, ← hp, ← hr, ← ha]
    simp only [Bool.and_eq_true] at hg
    exact ⟨hg.1.1.1, hg.1.1.2, hg.1.2, hg.2⟩
  · exact absurd h (by simp)

theorem invariants_of_validate_make (gb : GenomeRelease) (ch : String)
    (pos : Int) (dl ins : String) (ur : Option String) (v : SeqVar)
    (hdl : matchACGTi dl = true) (hins : matchACGTi ins = true)
    (hv : _validate_seqvar
      (SeqVar.make gb ch pos (pyUpper dl) (pyUpper ins) ur) = .ok v) :
    seqvarInvariants v := by
  obtain ⟨hveq, h1, h2⟩ := validate_ok_inv _ _ hv
  have hdel : allACGTupper (pyUpper dl) := upperACGT_of_matchACGTi dl hdl
  have hinsu : allACGTupper (pyUpper ins) := upperACGT_of_matchACGTi ins hins
  have hdfix : pyUpper (pyUpper dl) = pyUpper dl :=
    pyUpper_fix_of_allACGTupper _ hdel
  have hifix : pyUpper (pyUpper ins) = pyUpper ins :=
    pyUpper_fix_of_allACGTupper _ hinsu
  rw [hveq]
  refine ⟨h1, ?_, ?_, ?_⟩
  · exact h2
  · show allACGTupper (pyUpper (pyUpper dl))
    rw [hdfix]
    exact hdel
  · show allACGTupper (pyUpper (pyUpper ins))
    rw [hifix]
    exact hinsu

/-- C3 (amended): every `SeqVar` produced by the two local parse strategies
(separated gnomAD/relaxed-SPDI and canonical SPDI), which both end in
`_validate_seqvar`, satisfies the §3 invariants.  (The remote-normalization
fallback does not validate; see the counterexample.) -/
theorem C3_parse_strategies_satisfy_invariants (value : String)
    (gr : GenomeRelease) (v : SeqVar)
    (h : _parse_separated_seqvar value gr = .ok v ∨
      _parse_canonical_spdi_seqvar value = .ok v) :
    seqvarInvariants v := by
  rcases h with h | h
  · rw [_parse_separated_seqvar.eq_def] at h
    have hgroups :
        ∃ sep bo cg pg rg ag,
          parseSeparatedGroups sep value = some (bo, cg, pg, rg, ag) ∧
          (match (match bo with
                  | some gb =>
                    (match genomeReleaseOfName gb with
                     | some g => Except.ok g
                     | none => Except.error PyErr.keyError :
                       Except PyErr GenomeRelease)
                  | none => Except.ok gr) with
           | Except.error e => (Except.error e : Except PyErr SeqVar)
           | Except.ok genome_build =>
             _validate_seqvar
               (SeqVar.make genome_build (_normalize_chrom cg)
                 (pyIntOfDigits pg) (pyUpper rg) (pyUpper ag)
                 (some value))) = Except.ok v := by
      cases hg1 : parseSeparatedGroups '-' value with
      | some g =>
        obtain ⟨bo, cg, pg, rg, ag⟩ := g
        rw [hg1] at h
        exact ⟨'-', bo, cg, pg, rg, ag, hg1, h⟩
      | none =>
        rw [hg1] at h
        cases hg2 : parseSeparatedGroups ':' value with
        | some g =>
          obtain ⟨bo, cg, pg, rg, ag⟩ := g
          rw [hg2] at h
          exact ⟨':', bo, cg, pg, rg, ag, hg2, h⟩
        | none =>
          rw [hg2] at h
          exact absurd h (by simp)
    obtain ⟨sep, bo, cg, pg, rg, ag, hg, h⟩ := hgroups
    obtain ⟨-, -, hr, ha⟩ := parseSeparatedGroups_some_inv sep value bo cg pg
      rg ag hg
    cases bo with
    | none =>
      exact invariants_of_validate_make gr _ _ _ _ _ v hr ha h
    | some b =>
      dsimp only at h
      cases hgb : genomeReleaseOfName b with
      | none =>
        rw [hgb] at h
        exact absurd h (by simp)
      | some gb =>
        rw [hgb] at h
        exact invariants_of_validate_make gb _ _ _ _ _ v hr ha h
  · rw [_parse_canonical_spdi_seqvar.eq_def] at h
    split at h
    · rename_i sF pF rF aF heqsplit
      split at h
      · rename_i hguard
        simp only [Bool.and_eq_true] at hguard
        obtain ⟨⟨⟨-, -⟩, hr⟩, ha⟩ := hguard
        cases h37 : pyDictFind REFSEQ_CHROM_37 (pyUpper ⟨sF⟩) with
        | some chrom =>
          rw [h37] at h
          exact invariants_of_validate_make .GRCh37 _ _ _ _ _ v hr ha h
        | none =>
          rw [h37] at h
          cases h38 : pyDictFind REFSEQ_CHROM_38 (pyUpper ⟨sF⟩) with
          | some chrom =>
            rw [h38] at h
            exact invariants_of_validate_make .GRCh38 _ _ _ _ _ v hr ha h
          | none =>
            rw [h38] at h
            exact absurd h (by simp)
      · exact absurd h (by simp)
    · exact absurd h (by simp)

/-- C3 witness: the separated strategy accepts `GRCh38-1-100-A-T` and the
result satisfies the invariants. -/
theorem C3_parse_strategies_satisfy_invariants_witness :
    seqvarInvariants ⟨.GRCh38, "1", 100, "A", "T", "GRCh38-1-100-A-T"⟩ :=
  C3_parse_strategies_satisfy_invariants "GRCh38-1-100-A-T" .GRCh38
    ⟨.GRCh38, "1", 100, "A", "T", "GRCh38-1-100-A-T"⟩ (Or.inl rfl)

/-- C3 counterexample: the remote-normalization fallback (third strategy)
returns the dotty record without validation: with a successful dotty
response whose position is 0, `resolve_seqvar` returns a `SeqVar` violating
`position ≥ 1` instead of failing with `InvalidPos`. -/
theorem C3_dotty_fallback_skips_validation :
    resolve_seqvar (.ok ⟨true, some ⟨"GRCh38", "1", 0, "A", "T"⟩⟩) "rs123"
        .GRCh38 = .ok ⟨.GRCh38, "1", 0, "A", "T", "rs123"⟩ ∧
      ¬ seqvarInvariants ⟨.GRCh38, "1", 0, "A", "T", "rs123"⟩ := by
  constructor
  · rfl
  · intro hinv
    exact absurd hinv.1 (by decide)

/-! ## C9: round trip of the gnomAD rendering -/

theorem strData_append (a b : String) : (a ++ b).data = a.data ++ b.data := rfl

theorem splitCh_ne_nil (sep : Char) (l : List Char) : splitCh sep l ≠ [] := by
  cases l with
  | nil => simp [splitCh]
  | cons c rest =>
    simp only [splitCh]
    cases h : splitCh sep rest with
    | nil => simp
    | cons g gs => split_ifs <;> simp

theorem splitCh_no_sep (sep : Char) (xs : List Char) (h : sep ∉ xs) :
    splitCh sep xs = [xs] := by
  induction xs with
  | nil => rfl
  | cons c rest ih =>
    have hc : ¬(c = sep) := fun he => h (he ▸ List.mem_cons_self c rest)
    have hrest : sep ∉ rest := fun hm => h (List.mem_cons_of_mem c hm)
    simp [splitCh, ih hrest, hc]

theorem splitCh_append (sep : Char) (xs ys : List Char) (h : sep ∉ xs) :
    splitCh sep (xs ++ sep :: ys) = xs :: splitCh sep ys := by
  induction xs with
  | nil =>
    simp only [List.nil_append, splitCh]
    cases hy : splitCh sep ys with
    | nil => exact absurd hy (splitCh_ne_nil sep ys)
    | cons g gs => simp
  | cons c rest ih =>
    have hc : ¬(c = sep) := fun he => h (he ▸ List.mem_cons_self c rest)
    have hrest : sep ∉ rest := fun hm => h (List.mem_cons_of_mem c hm)
    simp [splitCh, ih hrest, hc]

/-- Grammar and normalization facts for all accepted chromosome names. -/
theorem chromNameFacts : ∀ ch ∈ allowedChromNames,
    (matchChromI ch = true ∧ '-' ∉ ch.data) ∧
    (ch ≠ "MT" → _normalize_chrom ch = ch ∧ _normalize_chromosome ch = ch) := by
  decide

theorem genomeReleaseNameFacts (gr : GenomeRelease) :
    isWordStr gr.name = true ∧ '-' ∉ gr.name.data ∧
      genomeReleaseOfName gr.name = some gr := by
  cases gr <;> exact ⟨by decide, by decide, rfl⟩

theorem matchACGTi_of_allACGTupper {s : String} (h : allACGTupper s) :
    matchACGTi s = true := by
  rw [matchACGTi, Bool.and_eq_true, List.all_eq_true]
  refine ⟨by simpa using h.1, fun c hc => ?_⟩
  have hm := h.2 c hc
  apply decide_eq_true
  fin_cases hm <;> decide

theorem natToStr_ne_dash (n : Nat) : '-' ∉ (natToStr n).data := by
  intro hd
  exact absurd ((natToStr_spec n).2.1 '-' hd) (by decide)

theorem strMkData (s : String) : (⟨s.data⟩ : String) = s := rfl

theorem seqVarExt (w u : SeqVar) (h1 : w.genome_release = u.genome_release)
    (h2 : w.chrom = u.chrom) (h3 : w.pos = u.pos) (h4 : w.delete = u.delete)
    (h5 : w.insert = u.insert) (h6 : w.user_repr = u.user_repr) : w = u := by
  cases w
  cases u
  simp_all

/-- C9 (amended): for every canonical variant `v` satisfying the §3
invariants whose chromosome is not `MT`, resolving the gnomAD rendering of
`v` returns `v` itself (the first strategy matches and validation passes).
For `MT` the chromosome normalization bug (C4) breaks the round trip; see
the counterexample. -/
theorem C9_render_roundtrip (dotty : Except PyErr DottySpdiResponse)
    (gr : GenomeRelease) (v : SeqVar) (hcan : canonicalSeqVar v)
    (hmt : v.chrom ≠ "MT") :
    resolve_seqvar dotty (render v) gr = .ok v := by
  obtain ⟨hchrom, ⟨hpos1, hstop, hdel, hins⟩, hrepr⟩ := hcan
  obtain ⟨⟨hchromI, hchromD⟩, hchromN⟩ := chromNameFacts v.chrom hchrom
  obtain ⟨hnorm1, hnorm2⟩ := hchromN hmt
  obtain ⟨hword, hgrD, hgrName⟩ := genomeReleaseNameFacts v.genome_release
  have hposStr : pyIntRepr v.pos = natToStr v.pos.toNat := by
    rw [pyIntRepr, if_neg (by omega)]
  have hdata : (render v).data =
      v.genome_release.name.data ++ '-' :: (v.chrom.data ++ '-' ::
        ((natToStr v.pos.toNat).data ++ '-' :: (v.delete.data ++ '-' ::
          v.insert.data))) := by
    rw [render, hposStr]
    simp [strData_append, List.append_assoc]
  have hsplit : splitCh '-' (render v).data =
      [v.genome_release.name.data, v.chrom.data, (natToStr v.pos.toNat).data,
       v.delete.data, v.insert.data] := by
    rw [hdata, splitCh_append _ _ _ hgrD, splitCh_append _ _ _ hchromD,
      splitCh_append _ _ _ (natToStr_ne_dash _),
      splitCh_append _ _ _ (allACGTupper_ne_dash hdel),
      splitCh_no_sep _ _ (allACGTupper_ne_dash hins)]
  have hpg : parseSeparatedGroups '-' (render v) =
      some (some v.genome_release.name, v.chrom,
        natToStr v.pos.toNat, v.delete, v.insert) := by
    rw [parseSeparatedGroups.eq_def, hsplit]
    dsimp only
    simp only [strMkData]
    rw [if_pos (by
      simp [hword, hchromI, isDigitsStr_natToStr,
        matchACGTi_of_allACGTupper hdel, matchACGTi_of_allACGTupper hins])]
  have hmk : SeqVar.make v.genome_release (_normalize_chrom v.chrom)
      (pyIntOfDigits (natToStr v.pos.toNat)) (pyUpper v.delete)
      (pyUpper v.insert) (some (render v)) = v := by
    apply seqVarExt
    · rfl
    · show _normalize_chromosome (_normalize_chrom v.chrom) = v.chrom
      rw [hnorm1, hnorm2]
    · show pyIntOfDigits (natToStr v.pos.toNat) = v.pos
      rw [pyIntOfDigits_natToStr]
      exact Int.toNat_of_nonneg (by omega)
    · show pyUpper (pyUpper v.delete) = v.delete
      rw [pyUpper_fix_of_allACGTupper _ hdel,
        pyUpper_fix_of_allACGTupper _ hdel]
    · show pyUpper (pyUpper v.insert) = v.insert
      rw [pyUpper_fix_of_allACGTupper _ hins,
        pyUpper_fix_of_allACGTupper _ hins]
    · show render v = v.user_repr
      exact hrepr.symm
  have hval : _validate_seqvar v = .ok v := by
    have htab : (if v.genome_release = .GRCh37 then CHROM_LENGTHS_37
        else CHROM_LENGTHS_38) = chromLengthsOf v.genome_release := by
      cases v.genome_release <;> rfl
    rw [_validate_seqvar, htab, if_neg (by omega), if_neg (by omega)]
  have hparse : _parse_separated_seqvar (render v) gr = .ok v := by
    rw [_parse_separated_seqvar.eq_def, hpg]
    dsimp only
    rw [hgrName]
    dsimp only
    rw [hmk]
    exact hval
  rw [resolve_seqvar.eq_def, hparse]

/-- C9 witness: the round trip at the concrete canonical variant
`GRCh38-1-100-A-T`. -/
theorem C9_render_roundtrip_witness :
    resolve_seqvar (.error .parseError)
      (render ⟨.GRCh38, "1", 100, "A", "T", "GRCh38-1-100-A-T"⟩) .GRCh38 =
    .ok ⟨.GRCh38, "1", 100, "A", "T", "GRCh38-1-100-A-T"⟩ :=
  C9_render_roundtrip (.error .parseError) .GRCh38
    ⟨.GRCh38, "1", 100, "A", "T", "GRCh38-1-100-A-T"⟩ (by decide) (by decide)

/-- C9 counterexample: the canonical mitochondrial variant
`GRCh38-MT-100-A-T` satisfies the §3 invariants, yet resolving its gnomAD
rendering raises `InvalidPos` instead of returning the variant: the
chromosome normalization maps `MT` to `MTT` (and then `MTTT`), which has no
entry in the length table. -/
theorem C9_mt_roundtrip_fails :
    canonicalSeqVar ⟨.GRCh38, "MT", 100, "A", "T", "GRCh38-MT-100-A-T"⟩ ∧
      resolve_seqvar (.error .parseError)
        (render ⟨.GRCh38, "MT", 100, "A", "T", "GRCh38-MT-100-A-T"⟩)
        .GRCh38 = .error .invalidPos := by
  constructor
  · decide
  · rfl

/-- C2 witness: the amended behavior at a concrete environment whose range
responses carry no ClinVar data. -/
theorem C2_zero_clinvar_always_algorithm_error_witness :
    crit4prot_func (fun _ _ _ => some ⟨none, none⟩)
      ⟨.GRCh38, "2", 500, "G", "C", "2-500-G-C"⟩
      [⟨10, 300, 20, 290⟩] (some .Minus) = .error .algorithmError :=
  C2_zero_clinvar_always_algorithm_error (fun _ _ _ => some ⟨none, none⟩)
    ⟨.GRCh38, "2", 500, "G", "C", "2-500-G-C"⟩ [⟨10, 300, 20, 290⟩] .Minus
    (by decide) (fun _ _ => Or.inl rfl)
